import Mathlib

/-!
Shallow embedding of the per-tick simulation core of the "Lunar Defense"
arcade shooter (src/src/App.tsx).

JavaScript numbers are modelled as exact fractions: the type `Q` below is
an integer numerator/denominator pair (kept unreduced so every operation
is plain integer arithmetic and evaluates inside the kernel); every value
the program ever builds has a positive denominator, and `Q.val` interprets
a `Q` as the rational number it denotes.  Health, shield, score and damage
are integer-valued throughout the program and are modelled as `ℤ`.

The calls to `Math.random()` and `Date.now()` and the currently-held-keys
set are external inputs of one tick; they are collected in a `Frame`
record, one per simulation step.  The mutable refs living outside the
React state (`animationRef`, `lastShotRef`) form the `Refs` record.
-/

namespace LunarDefense

/-- Exact fraction: `num / den`.  Program values always have `0 < den`. -/
structure Q where
  num : ℤ
  den : ℤ
deriving DecidableEq, Repr

namespace Q

/-- The rational number a fraction denotes. -/
def val (q : Q) : ℚ := (q.num : ℚ) / (q.den : ℚ)

/-- Addition of fractions. -/
protected def add (a b : Q) : Q := ⟨a.num * b.den + b.num * a.den, a.den * b.den⟩

/-- Negation of fractions. -/
protected def neg (a : Q) : Q := ⟨-a.num, a.den⟩

/-- Subtraction of fractions. -/
protected def sub (a b : Q) : Q := ⟨a.num * b.den - b.num * a.den, a.den * b.den⟩

/-- Multiplication of fractions. -/
protected def mul (a b : Q) : Q := ⟨a.num * b.num, a.den * b.den⟩

/-- Division of fractions (only ever used with positive divisors). -/
protected def div (a b : Q) : Q := ⟨a.num * b.den, a.den * b.num⟩

/-- Strict order, by cross multiplication; agrees with the order of the
denoted rationals whenever both denominators are positive. -/
protected def lt (a b : Q) : Prop := a.num * b.den < b.num * a.den

/-- Non-strict order, by cross multiplication. -/
protected def le (a b : Q) : Prop := a.num * b.den ≤ b.num * a.den

instance : Add Q := ⟨Q.add⟩
instance : Neg Q := ⟨Q.neg⟩
instance : Sub Q := ⟨Q.sub⟩
instance : Mul Q := ⟨Q.mul⟩
instance : Div Q := ⟨Q.div⟩
instance : LT Q := ⟨Q.lt⟩
instance : LE Q := ⟨Q.le⟩

instance (n : ℕ) : OfNat Q n := ⟨⟨n, 1⟩⟩
instance : NatCast Q := ⟨fun n => ⟨n, 1⟩⟩
instance : IntCast Q := ⟨fun n => ⟨n, 1⟩⟩

/-- Decimal literals such as `1.5` or `0.003`, denoting exact decimal
fractions. -/
instance : OfScientific Q :=
  ⟨fun m b e => if b then ⟨(m : ℤ), (10 : ℤ) ^ e⟩ else ⟨(m : ℤ) * (10 : ℤ) ^ e, 1⟩⟩

instance (a b : Q) : Decidable (a < b) := Int.decLt _ _
instance (a b : Q) : Decidable (a ≤ b) := Int.decLe _ _

/-- `Math.max`. -/
protected def max (a b : Q) : Q := if a < b then b else a

/-- `Math.min`. -/
protected def min (a b : Q) : Q := if a < b then a else b

/-- `Math.floor` of the denoted value (denominators are positive in every
use, where `Int.fdiv` is exactly the floor of the quotient). -/
def floor (a : Q) : ℤ := Int.fdiv a.num a.den

end Q

/-- 2-d vector, the `Position` record of the source used for velocities. -/
structure Vec where
  x : Q
  y : Q
deriving DecidableEq, Repr

/-- Axis-aligned bounding box data shared by every `GameObject` of the source. -/
structure Rect where
  x : Q
  y : Q
  width : Q
  height : Q
deriving DecidableEq, Repr

/-- Player projectile (`Bullet` in the source). -/
structure Bullet where
  x : Q
  y : Q
  width : Q
  height : Q
  velocity : Vec
  color : String
deriving DecidableEq, Repr

/-- Enemy projectile (`AlienBullet` in the source). -/
structure AlienBullet where
  x : Q
  y : Q
  width : Q
  height : Q
  velocity : Vec
  color : String
  damage : ℤ
deriving DecidableEq, Repr

/-- The closed set of enemy kinds. -/
inductive EnemyType where
  | scout
  | heavy
  | boss
deriving DecidableEq, Repr

/-- Enemy record of the source. -/
structure Enemy where
  x : Q
  y : Q
  width : Q
  height : Q
  velocity : Vec
  health : ℤ
  color : String
  type : EnemyType
  animationFrame : ℕ
  lastShot : ℤ
  shootCooldown : ℤ
deriving DecidableEq, Repr

/-- Player record of the source. -/
structure Player where
  x : Q
  y : Q
  width : Q
  height : Q
  velocity : Vec
  health : ℤ
  maxHealth : ℤ
  shield : ℤ
  maxShield : ℤ
  shieldRegenCooldown : ℕ
  lastDamaged : ℤ
  animationFrame : ℕ
deriving DecidableEq, Repr

/-- Visual particle record of the source. -/
structure Particle where
  x : Q
  y : Q
  velocity : Vec
  life : Q
  maxLife : Q
  color : String
  size : Q
deriving DecidableEq, Repr

/-- The `GameState` aggregate of the source. -/
structure GameState where
  player : Player
  bullets : List Bullet
  alienBullets : List AlienBullet
  enemies : List Enemy
  particles : List Particle
  score : ℤ
  gameOver : Bool
  paused : Bool
  wave : ℕ
deriving DecidableEq, Repr

/-- The mutable refs of the component that live outside the React state:
`animationRef.current` and `lastShotRef.current`. -/
structure Refs where
  animation : ℕ
  lastShot : ℤ
deriving DecidableEq, Repr

/-- The five `Math.random()` draws of one `createParticle` call. -/
structure ParticleRand where
  vx : Q
  vy : Q
  life : Q
  maxLife : Q
  size : Q
deriving DecidableEq, Repr

/-- External inputs of one simulation tick: the held-keys query, the wall
clock, and all `Math.random()` draws the tick may consume.  `shootRoll i`
is the draw of the `i`-th enemy in the enemy-shooting loop; `prand j`
holds the draws of the `j`-th `createParticle` call of the tick. -/
structure Frame where
  keys : String → Bool
  now : ℤ
  spawnRoll : Q
  typeRoll : Q
  xRoll : Q
  vxRoll : Q
  shootRoll : ℕ → Q
  prand : ℕ → ParticleRand

-- Constants of the source.

def CANVAS_WIDTH : Q := 900
def CANVAS_HEIGHT : Q := 700
def PLAYER_SPEED : Q := 6
def BULLET_SPEED : Q := 8
def ENEMY_SPEED : Q := 1.5
def ALIEN_BULLET_SPEED : Q := 4

-- String constants of the source (key names and colors).

def keyArrowLeft : String := "ArrowLeft"
def keyArrowRight : String := "ArrowRight"
def keyArrowUp : String := "ArrowUp"
def keyA : String := "a"
def keyD : String := "d"
def keyW : String := "w"
def keySpace : String := " "
def colorPlayerBullet : String := "#fbbf24"
def colorDamageRed : String := "#ef4444"
def colorHeavy : String := "#dc2626"
def colorBoss : String := "#7c2d12"
def colorScout : String := "#16a34a"
def colorHeavyBullet : String := "#f97316"
def colorScoutBullet : String := "#eab308"

/-- Bounding box of an enemy. -/
def Enemy.rect (e : Enemy) : Rect := ⟨e.x, e.y, e.width, e.height⟩

/-- Bounding box of the player. -/
def Player.rect (p : Player) : Rect := ⟨p.x, p.y, p.width, p.height⟩

/-- Bounding box of a player projectile. -/
def Bullet.rect (b : Bullet) : Rect := ⟨b.x, b.y, b.width, b.height⟩

/-- Bounding box of an enemy projectile. -/
def AlienBullet.rect (b : AlienBullet) : Rect := ⟨b.x, b.y, b.width, b.height⟩

/-- `checkCollision` of the source: strict axis-aligned box overlap. -/
def checkCollision (a b : Rect) : Bool :=
  decide (a.x < b.x + b.width) && decide (a.x + a.width > b.x) &&
    decide (a.y < b.y + b.height) && decide (a.y + a.height > b.y)

/-- `createParticle` of the source, with its five `Math.random()` draws
made explicit. -/
def createParticle (rand : ParticleRand) (x y : Q) (color : String) : Particle :=
  { x := x, y := y,
    velocity := ⟨(rand.vx - 0.5) * 6, (rand.vy - 0.5) * 6⟩,
    life := 30 + rand.life * 20,
    maxLife := 30 + rand.maxLife * 20,
    color := color,
    size := 2 + rand.size * 3 }

/-- A burst of `n` particles pushed at one spot, consuming the particle
random stream from position `k`. -/
def emit (pr : ℕ → ParticleRand) (k n : ℕ) (x y : Q) (color : String) : List Particle :=
  (List.range n).map fun j => createParticle (pr (k + j)) x y color

/-- The weighted type table `['scout', 'scout', 'heavy', 'boss']`. -/
def types : List EnemyType := [EnemyType.scout, EnemyType.scout, EnemyType.heavy, EnemyType.boss]

/-- `types[Math.floor(Math.random() * (wave > 3 ? types.length : 2))]`. -/
def pickType (wave : ℕ) (roll : Q) : EnemyType :=
  types.getD (roll * (if 3 < wave then (4 : Q) else 2)).floor.toNat EnemyType.scout

/-- `spawnEnemy` of the source, with the three `Math.random()` draws it
consumes taken from the frame. -/
def spawnEnemy (wave : ℕ) (f : Frame) : Enemy :=
  match pickType wave f.typeRoll with
  | EnemyType.heavy =>
      { x := f.xRoll * (CANVAS_WIDTH - 60), y := -60, width := 60, height := 50,
        velocity := ⟨(f.vxRoll - 0.5) * 1, ENEMY_SPEED * 0.7⟩, health := 3,
        color := colorHeavy, type := EnemyType.heavy, animationFrame := 0,
        lastShot := 0, shootCooldown := 0 }
  | EnemyType.boss =>
      { x := f.xRoll * (CANVAS_WIDTH - 80), y := -80, width := 80, height := 70,
        velocity := ⟨(f.vxRoll - 0.5) * 0.5, ENEMY_SPEED * 0.5⟩, health := 5,
        color := colorBoss, type := EnemyType.boss, animationFrame := 0,
        lastShot := 0, shootCooldown := 0 }
  | EnemyType.scout =>
      { x := f.xRoll * (CANVAS_WIDTH - 40), y := -40, width := 40, height := 35,
        velocity := ⟨(f.vxRoll - 0.5) * 2, ENEMY_SPEED⟩, health := 1,
        color := colorScout, type := EnemyType.scout, animationFrame := 0,
        lastShot := 0, shootCooldown := 0 }

/-- Contact damage applied on enemy/player overlap:
`enemy.type === 'boss' ? 40 : enemy.type === 'heavy' ? 25 : 15`. -/
def contactDamage : EnemyType → ℤ
  | EnemyType.boss => 40
  | EnemyType.heavy => 25
  | EnemyType.scout => 15

/-- Kill score: `enemy.type === 'boss' ? 50 : enemy.type === 'heavy' ? 25 : 10`. -/
def points : EnemyType → ℤ
  | EnemyType.boss => 50
  | EnemyType.heavy => 25
  | EnemyType.scout => 10

/-- Per-type shoot chance of the enemy-shooting switch. -/
def shootChance : EnemyType → Q
  | EnemyType.scout => 0.003
  | EnemyType.heavy => 0.008
  | EnemyType.boss => 0.015

/-- Per-type shoot cooldown (ms) of the enemy-shooting switch. -/
def shootCooldownMs : EnemyType → ℤ
  | EnemyType.scout => 2000
  | EnemyType.heavy => 1500
  | EnemyType.boss => 800

/-- Enemy projectile color by firing enemy type. -/
def alienBulletColor : EnemyType → String
  | EnemyType.boss => colorHeavy
  | EnemyType.heavy => colorHeavyBullet
  | EnemyType.scout => colorScoutBullet

/-- Enemy projectile damage: `boss ? 25 : heavy ? 15 : 8`. -/
def alienDamage : EnemyType → ℤ
  | EnemyType.boss => 25
  | EnemyType.heavy => 15
  | EnemyType.scout => 8

/-- Enemy spawn probability of a tick: `0.015 + wave * 0.003`. -/
def spawnRate (wave : ℕ) : Q := 0.015 + (wave : Q) * 0.003

-- The phases of one `updateGame` tick, in source order.

/-- Held-keys test for moving left. -/
def keyLeftHeld (f : Frame) : Bool := f.keys keyArrowLeft || f.keys keyA

/-- Held-keys test for moving right. -/
def keyRightHeld (f : Frame) : Bool := f.keys keyArrowRight || f.keys keyD

/-- Held-keys test for firing. -/
def keyFireHeld (f : Frame) : Bool := f.keys keySpace || f.keys keyW || f.keys keyArrowUp

/-- The horizontal velocity set from held keys: the source zeroes it, then
overwrites with `-PLAYER_SPEED` if a left key is held, then overwrites with
`PLAYER_SPEED` if a right key is held (so right wins when both are held). -/
def playerVX (f : Frame) : Q :=
  if keyRightHeld f then PLAYER_SPEED else if keyLeftHeld f then -PLAYER_SPEED else 0

/-- Player control phase: animation counter, velocity from keys, move,
clamp into the playfield. -/
def playerMoved (f : Frame) (a : ℕ) (p : Player) : Player :=
  let p1 : Player := { p with animationFrame := a, velocity := ⟨playerVX f, p.velocity.y⟩ }
  { p1 with x := Q.max 0 (Q.min (CANVAS_WIDTH - p1.width) (p1.x + p1.velocity.x)) }

/-- Whether the fire branch triggers: a fire key is held and at least 120ms
of wall clock elapsed since the last shot. -/
def fired (f : Frame) (lastShot : ℤ) : Bool :=
  keyFireHeld f && decide (f.now - lastShot > 120)

/-- The projectile pushed by the fire branch. -/
def newBullet (p : Player) : Bullet :=
  { x := p.x + p.width / 2 - 2, y := p.y, width := 4, height := 12,
    velocity := ⟨0, -BULLET_SPEED⟩, color := colorPlayerBullet }

/-- Firing phase: possibly push one bullet. -/
def bulletsShot (f : Frame) (lastShot : ℤ) (p : Player) (bs : List Bullet) : List Bullet :=
  if fired f lastShot then bs ++ [newBullet p] else bs

/-- New value of `lastShotRef.current`. -/
def lastShotAfter (f : Frame) (lastShot : ℤ) : ℤ :=
  if fired f lastShot then f.now else lastShot

/-- Player projectile advancement: move by velocity, drop above the top. -/
def moveBullets (bs : List Bullet) : List Bullet :=
  (bs.map fun b => { b with y := b.y + b.velocity.y }).filter fun b => decide (b.y > -15)

/-- Spawn phase: push one factory enemy when the spawn roll is below the rate. -/
def spawned (f : Frame) (wave : ℕ) (es : List Enemy) : List Enemy :=
  if decide (f.spawnRoll < spawnRate wave) then es ++ [spawnEnemy wave f] else es

/-- Enemy advancement map of the enemy-update phase. -/
def moveEnemy (a : ℕ) (e : Enemy) : Enemy :=
  { e with x := e.x + e.velocity.x, y := e.y + e.velocity.y, animationFrame := a }

/-- In-place horizontal bounce applied inside the enemy-update filter. -/
def bounceEnemy (e : Enemy) : Enemy :=
  if e.x ≤ 0 ∨ e.x ≥ CANVAS_WIDTH - e.width then
    { e with velocity := ⟨e.velocity.x * (-1), e.velocity.y⟩ }
  else e

instance (e : Enemy) : Decidable (e.x ≤ 0 ∨ e.x ≥ CANVAS_WIDTH - e.width) :=
  instDecidableOr

/-- The enemy-update filter of the source, threading the player (whose
health it mutates), the surviving enemies, the pushed particles and the
particle-stream counter.  Per enemy: bottom exit drops it, then the bounce
is applied, then player contact applies contact damage to health and drops
the enemy with a 10-particle burst. -/
def contactScan (pr : ℕ → ParticleRand) :
    Player → ℕ → List Enemy → Player × List Enemy × List Particle × ℕ
  | p, k, [] => (p, [], [], k)
  | p, k, e :: rest =>
    if decide (e.y > CANVAS_HEIGHT) then contactScan pr p k rest
    else
      let e' := bounceEnemy e
      if checkCollision e'.rect p.rect then
        let p' : Player := { p with health := p.health - contactDamage e'.type }
        let parts := emit pr k 10 (e'.x + e'.width / 2) (e'.y + e'.height / 2) colorDamageRed
        let r := contactScan pr p' (k + 10) rest
        (r.1, r.2.1, parts ++ r.2.2.1, r.2.2.2)
      else
        let r := contactScan pr p k rest
        (r.1, e' :: r.2.1, r.2.2.1, r.2.2.2)

/-- The inner loop of the bullet/enemy phase.  The source iterates the
enemy array from the last index down to 0, so this scan consumes the
REVERSED enemy list and stops at the first collision: `none` means the
bullet survives; `some (es', d, parts, k')` returns the updated (still
reversed) enemy list, the score delta, the pushed particles, and the
particle counter. -/
def shootScanRev (pr : ℕ → ParticleRand) (b : Bullet) (k : ℕ) :
    List Enemy → Option (List Enemy × ℤ × List Particle × ℕ)
  | [] => none
  | e :: rest =>
    if checkCollision b.rect e.rect then
      let e' : Enemy := { e with health := e.health - 1 }
      let hitParts := emit pr k 5 b.x b.y colorPlayerBullet
      if decide (e'.health ≤ 0) then
        let killParts := emit pr (k + 5) 15 (e'.x + e'.width / 2) (e'.y + e'.height / 2) e'.color
        some (rest, points e'.type, hitParts ++ killParts, k + 20)
      else
        some (e' :: rest, 0, hitParts, k + 5)
    else
      match shootScanRev pr b k rest with
      | none => none
      | some r => some (e :: r.1, r.2.1, r.2.2.1, r.2.2.2)

/-- The bullet filter of the bullet/enemy phase: each surviving bullet in
order scans the current enemies; a hit removes the bullet and may kill the
enemy and bump the score. -/
def bulletPhase (pr : ℕ → ParticleRand) :
    List Bullet → List Enemy → ℤ → ℕ → List Bullet × List Enemy × ℤ × List Particle × ℕ
  | [], es, sc, k => ([], es, sc, [], k)
  | b :: bs, es, sc, k =>
    match shootScanRev pr b k es.reverse with
    | none =>
      let r := bulletPhase pr bs es sc k
      (b :: r.1, r.2.1, r.2.2.1, r.2.2.2.1, r.2.2.2.2)
    | some hit =>
      let r := bulletPhase pr bs hit.1.reverse (sc + hit.2.1) hit.2.2.2
      (r.1, r.2.1, r.2.2.1, hit.2.2.1 ++ r.2.2.2.1, r.2.2.2.2)

/-- Enemy projectile advancement map. -/
def moveAliens (bs : List AlienBullet) : List AlienBullet :=
  bs.map fun b => { b with y := b.y + b.velocity.y }

/-- The damage application of an enemy-projectile hit (source lines
324-341): record the hit time, arm the 180-tick shield-regen lockout,
apply shield-first absorption with overflow carried to health, clamp
health at 0. -/
def damagePlayer (now : ℤ) (p : Player) (dmg : ℤ) : Player :=
  let p0 : Player := { p with lastDamaged := now, shieldRegenCooldown := 180 }
  let p1 : Player :=
    if decide (p0.shield > 0) then
      let pa : Player := { p0 with shield := p0.shield - dmg }
      if decide (pa.shield < 0) then
        { pa with health := pa.health + pa.shield, shield := 0 }
      else pa
    else { p0 with health := p0.health - dmg }
  if decide (p1.health < 0) then { p1 with health := 0 } else p1

/-- The enemy-projectile filter: bottom exit drops the projectile; a
player overlap applies `damagePlayer`, pushes 8 particles and drops the
projectile; otherwise it is kept.  Input list is already moved. -/
def alienScan (f : Frame) (pr : ℕ → ParticleRand) :
    List AlienBullet → Player → ℕ → List AlienBullet × Player × List Particle × ℕ
  | [], p, k => ([], p, [], k)
  | b :: rest, p, k =>
    if decide (b.y > CANVAS_HEIGHT) then alienScan f pr rest p k
    else if checkCollision b.rect p.rect then
      let p' := damagePlayer f.now p b.damage
      let parts := emit pr k 8 b.x b.y colorDamageRed
      let r := alienScan f pr rest p' (k + 8)
      (r.1, r.2.1, parts ++ r.2.2.1, r.2.2.2)
    else
      let r := alienScan f pr rest p k
      (b :: r.1, r.2.1, r.2.2.1, r.2.2.2)

/-- Enemy-shooting loop: per enemy, both the wall-clock cooldown and the
probability gate must pass; a firing enemy pushes one projectile from its
underside and records the shot time.  `i` indexes the per-enemy roll. -/
def enemyFire (f : Frame) : ℕ → List Enemy → List Enemy × List AlienBullet
  | _, [] => ([], [])
  | i, e :: rest =>
    if decide (f.now - e.lastShot > shootCooldownMs e.type) &&
        decide (f.shootRoll i < shootChance e.type) then
      let nb : AlienBullet :=
        { x := e.x + e.width / 2 - 2, y := e.y + e.height, width := 4, height := 8,
          velocity := ⟨0, ALIEN_BULLET_SPEED⟩, color := alienBulletColor e.type,
          damage := alienDamage e.type }
      let r := enemyFire f (i + 1) rest
      ({ e with lastShot := f.now } :: r.1, nb :: r.2)
    else
      let r := enemyFire f (i + 1) rest
      (e :: r.1, r.2)

/-- Shield regeneration phase: decrement the lockout if nonzero, then if
it reached zero and shield is below max, bump the shield (clamped to max)
and re-arm the lockout at 30. -/
def regenPhase (p : Player) : Player :=
  let p1 : Player :=
    if p.shieldRegenCooldown > 0 then
      { p with shieldRegenCooldown := p.shieldRegenCooldown - 1 }
    else p
  if decide (p1.shield < p1.maxShield) && decide (p1.shieldRegenCooldown = 0) then
    let p2 : Player := { p1 with shield := p1.shield + 1 }
    let p3 : Player :=
      if decide (p2.shield > p2.maxShield) then { p2 with shield := p2.maxShield } else p2
    { p3 with shieldRegenCooldown := 30 }
  else p1

/-- Particle aging phase: drift, drag the velocity by 0.95, count life
down, drop dead particles. -/
def agePhase (ps : List Particle) : List Particle :=
  (ps.map fun q =>
    { q with
      x := q.x + q.velocity.x,
      y := q.y + q.velocity.y,
      life := q.life - 1,
      velocity := ⟨q.velocity.x * 0.95, q.velocity.y * 0.95⟩ }).filter
    fun q => decide (q.life > 0)

/-- Wave progression: a positive exact multiple of 250 that changed this
tick bumps the wave. -/
def wavePhase (prevScore nextScore : ℤ) (w : ℕ) : ℕ :=
  if 0 < nextScore ∧ nextScore % 250 = 0 ∧ nextScore ≠ prevScore then w + 1 else w

-- Assembly of one tick.  Intermediate stages are named top-level
-- definitions so that every projection of the result reduces by `rfl`.

/-- Player after the control phase of a tick. -/
def pMoved (f : Frame) (r : Refs) (s : GameState) : Player :=
  playerMoved f (r.animation + 1) s.player

/-- Player projectiles after firing and advancement. -/
def bulletsIn (f : Frame) (r : Refs) (s : GameState) : List Bullet :=
  moveBullets (bulletsShot f r.lastShot (pMoved f r s) s.bullets)

/-- Enemies after spawning and advancement, entering the contact filter. -/
def enemiesIn (f : Frame) (r : Refs) (s : GameState) : List Enemy :=
  (spawned f s.wave s.enemies).map (moveEnemy (r.animation + 1))

/-- Result of the enemy-update/contact filter. -/
def contactRes (f : Frame) (r : Refs) (s : GameState) : Player × List Enemy × List Particle × ℕ :=
  contactScan f.prand (pMoved f r s) 0 (enemiesIn f r s)

/-- Result of the bullet/enemy phase. -/
def bulletRes (f : Frame) (r : Refs) (s : GameState) :
    List Bullet × List Enemy × ℤ × List Particle × ℕ :=
  bulletPhase f.prand (bulletsIn f r s) (contactRes f r s).2.1 s.score (contactRes f r s).2.2.2

/-- Result of the enemy-projectile phase. -/
def alienRes (f : Frame) (r : Refs) (s : GameState) :
    List AlienBullet × Player × List Particle × ℕ :=
  alienScan f f.prand (moveAliens s.alienBullets) (contactRes f r s).1 (bulletRes f r s).2.2.2.2

/-- Result of the enemy-shooting loop. -/
def fireRes (f : Frame) (r : Refs) (s : GameState) : List Enemy × List AlienBullet :=
  enemyFire f 0 (bulletRes f r s).2.1

/-- One full live tick of `updateGame` (the guard on `gameOver`/`paused`
is in `stepFull`). -/
def stepCore (f : Frame) (r : Refs) (s : GameState) : Refs × GameState :=
  (⟨r.animation + 1, lastShotAfter f r.lastShot⟩,
   { player := regenPhase (alienRes f r s).2.1,
     bullets := (bulletRes f r s).1,
     alienBullets := (alienRes f r s).1 ++ (fireRes f r s).2,
     enemies := (fireRes f r s).1,
     particles := agePhase (s.particles ++ (contactRes f r s).2.2.1 ++
       (bulletRes f r s).2.2.2.1 ++ (alienRes f r s).2.2.1),
     score := (bulletRes f r s).2.2.1,
     gameOver := s.gameOver || decide ((regenPhase (alienRes f r s).2.1).health ≤ 0),
     paused := s.paused,
     wave := wavePhase s.score (bulletRes f r s).2.2.1 s.wave })

/-- `updateGame`: a no-op when `gameOver` or `paused` is set, otherwise
one full tick. -/
def stepFull (f : Frame) (p : Refs × GameState) : Refs × GameState :=
  if p.2.gameOver || p.2.paused then p else stepCore f p.1 p.2

/-- Iterated ticks driven by the frame sequence `g` (`g k` drives the
`k+1`-st tick). -/
def runFrom (g : ℕ → Frame) (p : Refs × GameState) : ℕ → Refs × GameState
  | 0 => p
  | k + 1 => stepFull (g k) (runFrom g p k)

/-- The initial player of `useState` / `resetGame`. -/
def initialPlayer : Player :=
  { x := CANVAS_WIDTH / 2 - 20, y := CANVAS_HEIGHT - 120, width := 40, height := 60,
    velocity := ⟨0, 0⟩, health := 100, maxHealth := 100, shield := 100, maxShield := 100,
    shieldRegenCooldown := 0, lastDamaged := 0, animationFrame := 0 }

/-- The initial world state. -/
def initialState : GameState :=
  { player := initialPlayer, bullets := [], alienBullets := [], enemies := [], particles := [],
    score := 0, gameOver := false, paused := false, wave := 1 }

/-- Initial values of the refs. -/
def initialRefs : Refs := ⟨0, 0⟩

/-- A legal `Math.random()` output: a fraction with positive denominator
denoting a value in `[0, 1)`. -/
def unitQ (q : Q) : Prop := 0 < q.den ∧ 0 ≤ q.num ∧ q.num < q.den

instance (q : Q) : Decidable (unitQ q) := instDecidableAnd

/-- A frame all of whose random draws are legal `Math.random()` outputs. -/
def validFrame (f : Frame) : Prop :=
  unitQ f.spawnRoll ∧ unitQ f.typeRoll ∧ unitQ f.xRoll ∧ unitQ f.vxRoll ∧
    (∀ i, unitQ (f.shootRoll i)) ∧
    (∀ j, unitQ (f.prand j).vx ∧ unitQ (f.prand j).vy ∧ unitQ (f.prand j).life ∧
      unitQ (f.prand j).maxLife ∧ unitQ (f.prand j).size)

/-- A world state reachable from the initial state by some number of
ticks driven by legal random draws. -/
def Reach (s : GameState) : Prop :=
  ∃ (g : ℕ → Frame) (k : ℕ), (∀ n, validFrame (g n)) ∧
    (runFrom g (initialRefs, initialState) k).2 = s

-- Derived predicates over the contact filter, used to state its effect.

/-- An enemy the contact filter keeps: not past the bottom and not
touching the player. -/
def keepEnemy (p : Player) (e : Enemy) : Bool :=
  !(decide (e.y > CANVAS_HEIGHT)) && !(checkCollision e.rect p.rect)

/-- An enemy that deals contact damage this tick: not past the bottom and
touching the player. -/
def victimEnemy (p : Player) (e : Enemy) : Bool :=
  !(decide (e.y > CANVAS_HEIGHT)) && checkCollision e.rect p.rect

/-- Total contact damage the enemy list deals to the player this tick. -/
def contactTotal (p : Player) (es : List Enemy) : ℤ :=
  ((es.filter (victimEnemy p)).map fun e => contactDamage e.type).sum

-- The inductive invariant of reachable states.

/-- Inductive invariant: bounds on the player's pools, nonnegative damage
of every enemy projectile in flight, and positive health of every live
enemy. -/
def Inv (s : GameState) : Prop :=
  s.player.maxHealth = 100 ∧ s.player.maxShield = 100 ∧
    0 ≤ s.player.shield ∧ s.player.shield ≤ s.player.maxShield ∧
    s.player.health ≤ s.player.maxHealth ∧
    (0 ≤ s.player.health ∨ s.gameOver = true) ∧
    (∀ b ∈ s.alienBullets, 0 ≤ b.damage) ∧
    (∀ e ∈ s.enemies, 1 ≤ e.health)

-- Quiet states and calm frames: nothing in flight, no inputs, no spawn.
-- Under these, a tick only ages particles and runs shield regeneration.

/-- A state with no projectiles and no enemies, not over, not paused, and
a live player. -/
def Quiet (s : GameState) : Prop :=
  s.bullets = [] ∧ s.alienBullets = [] ∧ s.enemies = [] ∧ s.gameOver = false ∧
    s.paused = false ∧ 0 < s.player.health

/-- A frame holding no keys whose spawn roll misses the spawn rate of
wave `w`. -/
def CalmFrame (f : Frame) (w : ℕ) : Prop :=
  (∀ k, f.keys k = false) ∧ ¬(f.spawnRoll < spawnRate w)

-- Concrete frames and runs used by the counterexamples and witnesses.

/-- Particle randomness that always draws 0 (a legal `Math.random` value). -/
def prZero : ParticleRand := ⟨0, 0, 0, 0, 0⟩

/-- A frame with no keys held, clock 0, and all rolls 1/2 except the
enemy-type roll (0): nothing spawns, nobody shoots, nobody fires. -/
def frameIdle : Frame :=
  { keys := fun _ => false, now := 0, spawnRoll := 0.5, typeRoll := 0, xRoll := 0.5,
    vxRoll := 0.5, shootRoll := fun _ => 0.5, prand := fun _ => prZero }

/-- An idle frame whose spawn roll (0) is below every spawn rate: one
enemy spawns. -/
def frameSpawn : Frame := { frameIdle with spawnRoll := 0 }

/-- An idle frame at clock 10000 whose first enemy-shoot roll is 0: the
first enemy fires. -/
def frameShoot : Frame :=
  { frameIdle with now := 10000, shootRoll := fun i => if i = 0 then 0 else 0.5 }

/-- The counterexample schedule: a scout spawns on each of the first 7
ticks (all at the player's x, falling straight down); the first scout
fires on tick 8; every later tick is idle.  The projectile hits the
player on tick 150 (shield 100 to 92, regen lockout armed); the seven
scouts reach the player on ticks 391..397, each contact taking 15 health,
ending at health -5. -/
def cexFrames : ℕ → Frame :=
  fun n => if n < 7 then frameSpawn else if n = 7 then frameShoot else frameIdle

/-- The initial refs/state pair. -/
def P0 : Refs × GameState := (initialRefs, initialState)

/-- Checkpoint: the world after 149 ticks of `cexFrames`. -/
def S149 : Refs × GameState :=
  ({ animation := 149, lastShot := 0 },
   { player := { x := { num := 860, den := 2 }, y := { num := 580, den := 1 }, width := { num := 40, den := 1 }, height := { num := 60, den := 1 }, velocity := { x := { num := 0, den := 1 }, y := { num := 0, den := 1 } }, health := 100, maxHealth := 100, shield := 100, maxShield := 100, shieldRegenCooldown := 0, lastDamaged := 0, animationFrame := 149 },
     bullets := [],
     alienBullets := [{ x := { num := 896 * 10 ^ 17, den := 2 * 10 ^ 17 }, y := { num := 571 * 10 ^ 8, den := 1 * 10 ^ 8 }, width := { num := 4, den := 1 }, height := { num := 8, den := 1 }, velocity := { x := { num := 0, den := 1 }, y := { num := 4, den := 1 } }, color := "#eab308", damage := 8 }],
     enemies := [{ x := { num := 43 * 10 ^ 300,
                          den := 1 * 10 ^ 299 },
                   y := { num := 1835 * 10 ^ 148, den := 1 * 10 ^ 149 },
                   width := { num := 40, den := 1 },
                   height := { num := 35, den := 1 },
                   velocity := { x := { num := 0, den := 100 }, y := { num := 15, den := 10 } },
                   health := 1,
                   color := "#16a34a",
                   type := LunarDefense.EnemyType.scout,
                   animationFrame := 149,
                   lastShot := 10000,
                   shootCooldown := 0 },
                 { x := { num := 43 * 10 ^ 298,
                          den := 1 * 10 ^ 297 },
                   y := { num := 182 * 10 ^ 148, den := 1 * 10 ^ 148 },
                   width := { num := 40, den := 1 },
                   height := { num := 35, den := 1 },
                   velocity := { x := { num := 0, den := 100 }, y := { num := 15, den := 10 } },
                   health := 1,
                   color := "#16a34a",
                   type := LunarDefense.EnemyType.scout,
                   animationFrame := 149,
                   lastShot := 0,
                   shootCooldown := 0 },
                 { x := { num := 43 * 10 ^ 296,
                          den := 1 * 10 ^ 295 },
                   y := { num := 1805 * 10 ^ 146, den := 1 * 10 ^ 147 },
                   width := { num := 40, den := 1 },
                   height := { num := 35, den := 1 },
                   velocity := { x := { num := 0, den := 100 }, y := { num := 15, den := 10 } },
                   health := 1,
                   color := "#16a34a",
                   type := LunarDefense.EnemyType.scout,
                   animationFrame := 149,
                   lastShot := 0,
                   shootCooldown := 0 },
                 { x := { num := 43 * 10 ^ 294,
                          den := 1 * 10 ^ 293 },
                   y := { num := 179 * 10 ^ 146, den := 1 * 10 ^ 146 },
                   width := { num := 40, den := 1 },
                   height := { num := 35, den := 1 },
                   velocity := { x := { num := 0, den := 100 }, y := { num := 15, den := 10 } },
                   health := 1,
                   color := "#16a34a",
                   type := LunarDefense.EnemyType.scout,
                   animationFrame := 149,
                   lastShot := 0,
                   shootCooldown := 0 },
                 { x := { num := 43 * 10 ^ 292,
                          den := 1 * 10 ^ 291 },
                   y := { num := 1775 * 10 ^ 144, den := 1 * 10 ^ 145 },
                   width := { num := 40, den := 1 },
                   height := { num := 35, den := 1 },
                   velocity := { x := { num := 0, den := 100 }, y := { num := 15, den := 10 } },
                   health := 1,
                   color := "#16a34a",
                   type := LunarDefense.EnemyType.scout,
                   animationFrame := 149,
                   lastShot := 0,
                   shootCooldown := 0 },
                 { x := { num := 43 * 10 ^ 290,
                          den := 1 * 10 ^ 289 },
                   y := { num := 176 * 10 ^ 144, den := 1 * 10 ^ 144 },
                   width := { num := 40, den := 1 },
                   height := { num := 35, den := 1 },
                   velocity := { x := { num := 0, den := 100 }, y := { num := 15, den := 10 } },
                   health := 1,
                   color := "#16a34a",
                   type := LunarDefense.EnemyType.scout,
                   animationFrame := 149,
                   lastShot := 0,
                   shootCooldown := 0 },
                 { x := { num := 43 * 10 ^ 288,
                          den := 1 * 10 ^ 287 },
                   y := { num := 1745 * 10 ^ 142, den := 1 * 10 ^ 143 },
                   width := { num := 40, den := 1 },
                   height := { num := 35, den := 1 },
                   velocity := { x := { num := 0, den := 100 }, y := { num := 15, den := 10 } },
                   health := 1,
                   color := "#16a34a",
                   type := LunarDefense.EnemyType.scout,
                   animationFrame := 149,
                   lastShot := 0,
                   shootCooldown := 0 }],
     particles := [],
     score := 0,
     gameOver := false,
     paused := false,
     wave := 1 })

/-- Checkpoint: the world after 150 ticks of `cexFrames`. -/
def S150 : Refs × GameState :=
  ({ animation := 150, lastShot := 0 },
   { player := { x := { num := 860, den := 2 }, y := { num := 580, den := 1 }, width := { num := 40, den := 1 }, height := { num := 60, den := 1 }, velocity := { x := { num := 0, den := 1 }, y := { num := 0, den := 1 } }, health := 100, maxHealth := 100, shield := 92, maxShield := 100, shieldRegenCooldown := 179, lastDamaged := 0, animationFrame := 150 },
     bullets := [],
     alienBullets := [],
     enemies := [{ x := { num := 43 * 10 ^ 302,
                          den := 1 * 10 ^ 301 },
                   y := { num := 185 * 10 ^ 150, den := 1 * 10 ^ 150 },
                   width := { num := 40, den := 1 },
                   height := { num := 35, den := 1 },
                   velocity := { x := { num := 0, den := 100 }, y := { num := 15, den := 10 } },
                   health := 1,
                   color := "#16a34a",
                   type := LunarDefense.EnemyType.scout,
                   animationFrame := 150,
                   lastShot := 10000,
                   shootCooldown := 0 },
                 { x := { num := 43 * 10 ^ 300,
                          den := 1 * 10 ^ 299 },
                   y := { num := 1835 * 10 ^ 148, den := 1 * 10 ^ 149 },
                   width := { num := 40, den := 1 },
                   height := { num := 35, den := 1 },
                   velocity := { x := { num := 0, den := 100 }, y := { num := 15, den := 10 } },
                   health := 1,
                   color := "#16a34a",
                   type := LunarDefense.EnemyType.scout,
                   animationFrame := 150,
                   lastShot := 0,
                   shootCooldown := 0 },
                 { x := { num := 43 * 10 ^ 298,
                          den := 1 * 10 ^ 297 },
                   y := { num := 182 * 10 ^ 148, den := 1 * 10 ^ 148 },
                   width := { num := 40, den := 1 },
                   height := { num := 35, den := 1 },
                   velocity := { x := { num := 0, den := 100 }, y := { num := 15, den := 10 } },
                   health := 1,
                   color := "#16a34a",
                   type := LunarDefense.EnemyType.scout,
                   animationFrame := 150,
                   lastShot := 0,
                   shootCooldown := 0 },
                 { x := { num := 43 * 10 ^ 296,
                          den := 1 * 10 ^ 295 },
                   y := { num := 1805 * 10 ^ 146, den := 1 * 10 ^ 147 },
                   width := { num := 40, den := 1 },
                   height := { num := 35, den := 1 },
                   velocity := { x := { num := 0, den := 100 }, y := { num := 15, den := 10 } },
                   health := 1,
                   color := "#16a34a",
                   type := LunarDefense.EnemyType.scout,
                   animationFrame := 150,
                   lastShot := 0,
                   shootCooldown := 0 },
                 { x := { num := 43 * 10 ^ 294,
                          den := 1 * 10 ^ 293 },
                   y := { num := 179 * 10 ^ 146, den := 1 * 10 ^ 146 },
                   width := { num := 40, den := 1 },
                   height := { num := 35, den := 1 },
                   velocity := { x := { num := 0, den := 100 }, y := { num := 15, den := 10 } },
                   health := 1,
                   color := "#16a34a",
                   type := LunarDefense.EnemyType.scout,
                   animationFrame := 150,
                   lastShot := 0,
                   shootCooldown := 0 },
                 { x := { num := 43 * 10 ^ 292,
                          den := 1 * 10 ^ 291 },
                   y := { num := 1775 * 10 ^ 144, den := 1 * 10 ^ 145 },
                   width := { num := 40, den := 1 },
                   height := { num := 35, den := 1 },
                   velocity := { x := { num := 0, den := 100 }, y := { num := 15, den := 10 } },
                   health := 1,
                   color := "#16a34a",
                   type := LunarDefense.EnemyType.scout,
                   animationFrame := 150,
                   lastShot := 0,
                   shootCooldown := 0 },
                 { x := { num := 43 * 10 ^ 290,
                          den := 1 * 10 ^ 289 },
                   y := { num := 176 * 10 ^ 144, den := 1 * 10 ^ 144 },
                   width := { num := 40, den := 1 },
                   height := { num := 35, den := 1 },
                   velocity := { x := { num := 0, den := 100 }, y := { num := 15, den := 10 } },
                   health := 1,
                   color := "#16a34a",
                   type := LunarDefense.EnemyType.scout,
                   animationFrame := 150,
                   lastShot := 0,
                   shootCooldown := 0 }],
     particles := [{ x := { num := 89 * 10 ^ 19, den := 2 * 10 ^ 18 }, y := { num := 572 * 10 ^ 9, den := 1 * 10 ^ 9 }, velocity := { x := { num := -2850, den := 1000 }, y := { num := -2850, den := 1000 } }, life := { num := 29, den := 1 }, maxLife := { num := 30, den := 1 }, color := "#ef4444", size := { num := 2, den := 1 } },
                   { x := { num := 89 * 10 ^ 19, den := 2 * 10 ^ 18 }, y := { num := 572 * 10 ^ 9, den := 1 * 10 ^ 9 }, velocity := { x := { num := -2850, den := 1000 }, y := { num := -2850, den := 1000 } }, life := { num := 29, den := 1 }, maxLife := { num := 30, den := 1 }, color := "#ef4444", size := { num := 2, den := 1 } },
                   { x := { num := 89 * 10 ^ 19, den := 2 * 10 ^ 18 }, y := { num := 572 * 10 ^ 9, den := 1 * 10 ^ 9 }, velocity := { x := { num := -2850, den := 1000 }, y := { num := -2850, den := 1000 } }, life := { num := 29, den := 1 }, maxLife := { num := 30, den := 1 }, color := "#ef4444", size := { num := 2, den := 1 } },
                   { x := { num := 89 * 10 ^ 19, den := 2 * 10 ^ 18 }, y := { num := 572 * 10 ^ 9, den := 1 * 10 ^ 9 }, velocity := { x := { num := -2850, den := 1000 }, y := { num := -2850, den := 1000 } }, life := { num := 29, den := 1 }, maxLife := { num := 30, den := 1 }, color := "#ef4444", size := { num := 2, den := 1 } },
                   { x := { num := 89 * 10 ^ 19, den := 2 * 10 ^ 18 }, y := { num := 572 * 10 ^ 9, den := 1 * 10 ^ 9 }, velocity := { x := { num := -2850, den := 1000 }, y := { num := -2850, den := 1000 } }, life := { num := 29, den := 1 }, maxLife := { num := 30, den := 1 }, color := "#ef4444", size := { num := 2, den := 1 } },
                   { x := { num := 89 * 10 ^ 19, den := 2 * 10 ^ 18 }, y := { num := 572 * 10 ^ 9, den := 1 * 10 ^ 9 }, velocity := { x := { num := -2850, den := 1000 }, y := { num := -2850, den := 1000 } }, life := { num := 29, den := 1 }, maxLife := { num := 30, den := 1 }, color := "#ef4444", size := { num := 2, den := 1 } },
                   { x := { num := 89 * 10 ^ 19, den := 2 * 10 ^ 18 }, y := { num := 572 * 10 ^ 9, den := 1 * 10 ^ 9 }, velocity := { x := { num := -2850, den := 1000 }, y := { num := -2850, den := 1000 } }, life := { num := 29, den := 1 }, maxLife := { num := 30, den := 1 }, color := "#ef4444", size := { num := 2, den := 1 } },
                   { x := { num := 89 * 10 ^ 19, den := 2 * 10 ^ 18 }, y := { num := 572 * 10 ^ 9, den := 1 * 10 ^ 9 }, velocity := { x := { num := -2850, den := 1000 }, y := { num := -2850, den := 1000 } }, life := { num := 29, den := 1 }, maxLife := { num := 30, den := 1 }, color := "#ef4444", size := { num := 2, den := 1 } }],
     score := 0,
     gameOver := false,
     paused := false,
     wave := 1 })

/-- Checkpoint: the world after 328 ticks of `cexFrames`. -/
def S328 : Refs × GameState :=
  ({ animation := 328, lastShot := 0 },
   { player := { x := { num := 860, den := 2 }, y := { num := 580, den := 1 }, width := { num := 40, den := 1 }, height := { num := 60, den := 1 }, velocity := { x := { num := 0, den := 1 }, y := { num := 0, den := 1 } }, health := 100, maxHealth := 100, shield := 92, maxShield := 100, shieldRegenCooldown := 1, lastDamaged := 0, animationFrame := 328 },
     bullets := [],
     alienBullets := [],
     enemies := [{ x := { num := 43 * 10 ^ 658,
                          den := 1 * 10 ^ 657 },
                   y := { num := 452 * 10 ^ 328,
                          den := 1 * 10 ^ 328 },
                   width := { num := 40, den := 1 },
                   height := { num := 35, den := 1 },
                   velocity := { x := { num := 0, den := 100 }, y := { num := 15, den := 10 } },
                   health := 1,
                   color := "#16a34a",
                   type := LunarDefense.EnemyType.scout,
                   animationFrame := 328,
                   lastShot := 10000,
                   shootCooldown := 0 },
                 { x := { num := 43 * 10 ^ 656,
                          den := 1 * 10 ^ 655 },
                   y := { num := 4505 * 10 ^ 326,
                          den := 1 * 10 ^ 327 },
                   width := { num := 40, den := 1 },
                   height := { num := 35, den := 1 },
                   velocity := { x := { num := 0, den := 100 }, y := { num := 15, den := 10 } },
                   health := 1,
                   color := "#16a34a",
                   type := LunarDefense.EnemyType.scout,
                   animationFrame := 328,
                   lastShot := 0,
                   shootCooldown := 0 },
                 { x := { num := 43 * 10 ^ 654,
                          den := 1 * 10 ^ 653 },
                   y := { num := 449 * 10 ^ 326,
                          den := 1 * 10 ^ 326 },
                   width := { num := 40, den := 1 },
                   height := { num := 35, den := 1 },
                   velocity := { x := { num := 0, den := 100 }, y := { num := 15, den := 10 } },
                   health := 1,
                   color := "#16a34a",
                   type := LunarDefense.EnemyType.scout,
                   animationFrame := 328,
                   lastShot := 0,
                   shootCooldown := 0 },
                 { x := { num := 43 * 10 ^ 652,
                          den := 1 * 10 ^ 651 },
                   y := { num := 4475 * 10 ^ 324,
                          den := 1 * 10 ^ 325 },
                   width := { num := 40, den := 1 },
                   height := { num := 35, den := 1 },
                   velocity := { x := { num := 0, den := 100 }, y := { num := 15, den := 10 } },
                   health := 1,
                   color := "#16a34a",
                   type := LunarDefense.EnemyType.scout,
                   animationFrame := 328,
                   lastShot := 0,
                   shootCooldown := 0 },
                 { x := { num := 43 * 10 ^ 650,
                          den := 1 * 10 ^ 649 },
                   y := { num := 446 * 10 ^ 324,
                          den := 1 * 10 ^ 324 },
                   width := { num := 40, den := 1 },
                   height := { num := 35, den := 1 },
                   velocity := { x := { num := 0, den := 100 }, y := { num := 15, den := 10 } },
                   health := 1,
                   color := "#16a34a",
                   type := LunarDefense.EnemyType.scout,
                   animationFrame := 328,
                   lastShot := 0,
                   shootCooldown := 0 },
                 { x := { num := 43 * 10 ^ 648,
                          den := 1 * 10 ^ 647 },
                   y := { num := 4445 * 10 ^ 322,
                          den := 1 * 10 ^ 323 },
                   width := { num := 40, den := 1 },
                   height := { num := 35, den := 1 },
                   velocity := { x := { num := 0, den := 100 }, y := { num := 15, den := 10 } },
                   health := 1,
                   color := "#16a34a",
                   type := LunarDefense.EnemyType.scout,
                   animationFrame := 328,
                   lastShot := 0,
                   shootCooldown := 0 },
                 { x := { num := 43 * 10 ^ 646,
                          den := 1 * 10 ^ 645 },
                   y := { num := 443 * 10 ^ 322,
                          den := 1 * 10 ^ 322 },
                   width := { num := 40, den := 1 },
                   height := { num := 35, den := 1 },
                   velocity := { x := { num := 0, den := 100 }, y := { num := 15, den := 10 } },
                   health := 1,
                   color := "#16a34a",
                   type := LunarDefense.EnemyType.scout,
                   animationFrame := 328,
                   lastShot := 0,
                   shootCooldown := 0 }],
     particles := [],
     score := 0,
     gameOver := false,
     paused := false,
     wave := 1 })

-- Concrete one-tick scenarios for the wave, scoring and contact claims.

/-- A player projectile at horizontal position `x`, above the enemy rank
at height 320. -/
def testBullet (x : Q) : Bullet :=
  { x := x, y := 320, width := 4, height := 12, velocity := ⟨0, -BULLET_SPEED⟩,
    color := colorPlayerBullet }

/-- A heavy on its last health point, in the path of `testBullet 420`. -/
def heavyVictim : Enemy :=
  { x := 400, y := 300, width := 60, height := 50, velocity := ⟨0, 1⟩, health := 1,
    color := colorHeavy, type := EnemyType.heavy, animationFrame := 0,
    lastShot := 0, shootCooldown := 0 }

/-- A scout on its last health point, in the path of `testBullet 420`. -/
def scoutVictim : Enemy :=
  { x := 400, y := 300, width := 40, height := 35, velocity := ⟨0, 1⟩, health := 1,
    color := colorScout, type := EnemyType.scout, animationFrame := 0,
    lastShot := 0, shootCooldown := 0 }

/-- Score 240, one bullet about to kill a heavy: the kill lands on 265. -/
def heavyKillState : GameState :=
  { initialState with score := 240, bullets := [testBullet 420], enemies := [heavyVictim] }

/-- Score 240, one bullet about to kill a scout: the kill lands on 250. -/
def scoutKillState : GameState :=
  { initialState with score := 240, bullets := [testBullet 420], enemies := [scoutVictim] }

/-- A fresh scout at x 100. -/
def rankScout : Enemy :=
  { x := 100, y := 300, width := 40, height := 35, velocity := ⟨0, 1⟩, health := 1,
    color := colorScout, type := EnemyType.scout, animationFrame := 0,
    lastShot := 0, shootCooldown := 0 }

/-- A fresh heavy at x 300. -/
def rankHeavy : Enemy :=
  { x := 300, y := 300, width := 60, height := 50, velocity := ⟨0, 1⟩, health := 3,
    color := colorHeavy, type := EnemyType.heavy, animationFrame := 0,
    lastShot := 0, shootCooldown := 0 }

/-- A fresh boss at x 600. -/
def rankBoss : Enemy :=
  { x := 600, y := 300, width := 80, height := 70, velocity := ⟨0, 1⟩, health := 5,
    color := colorBoss, type := EnemyType.boss, animationFrame := 0,
    lastShot := 0, shootCooldown := 0 }

/-- Nine bullets against a fresh scout, heavy and boss: 1+3+5 hits kill
all three in one tick, scoring 10+25+50 = 85 from 0. -/
def rankState : GameState :=
  { initialState with
    bullets := [testBullet 110, testBullet 320, testBullet 320, testBullet 320,
      testBullet 630, testBullet 630, testBullet 630, testBullet 630, testBullet 630],
    enemies := [rankScout, rankHeavy, rankBoss] }

/-- A scout one step above the player's box, about to make contact. -/
def contactScout : Enemy :=
  { x := 430, y := 544, width := 40, height := 35, velocity := ⟨0, 2⟩, health := 1,
    color := colorScout, type := EnemyType.scout, animationFrame := 0,
    lastShot := 0, shootCooldown := 0 }

/-- A state whose single enemy contacts the player this tick. -/
def contactState : GameState := { initialState with enemies := [contactScout] }

/-- A quiet state with shield 92 and the regen lockout at 179, as left by
an enemy-projectile hit one tick ago. -/
def qState : GameState :=
  { initialState with player :=
    { initialPlayer with shield := 92, shieldRegenCooldown := 179 } }

/-- A paused state used by the no-op witness. -/
def pausedState : GameState := { initialState with paused := true }

-- Projection lemmas for the fraction arithmetic.

@[simp] theorem Q.add_num (a b : Q) : (a + b).num = a.num * b.den + b.num * a.den := rfl

@[simp] theorem Q.add_den (a b : Q) : (a + b).den = a.den * b.den := rfl

@[simp] theorem Q.sub_num (a b : Q) : (a - b).num = a.num * b.den - b.num * a.den := rfl

@[simp] theorem Q.sub_den (a b : Q) : (a - b).den = a.den * b.den := rfl

@[simp] theorem Q.mul_num (a b : Q) : (a * b).num = a.num * b.num := rfl

@[simp] theorem Q.mul_den (a b : Q) : (a * b).den = a.den * b.den := rfl

theorem Q.lt_def (a b : Q) : a < b ↔ a.num * b.den < b.num * a.den := Iff.rfl

theorem Q.le_def (a b : Q) : a ≤ b ↔ a.num * b.den ≤ b.num * a.den := Iff.rfl

-- Composition of runs.

theorem runFrom_add (g : ℕ → Frame) (p : Refs × GameState) (a b : ℕ) :
    runFrom g p (a + b) = runFrom (fun n => g (a + n)) (runFrom g p a) b := by
  induction b with
  | zero => rfl
  | succ b ih => rw [← Nat.add_assoc, runFrom, runFrom, ih]

-- The counterexample run, checked against the checkpoint literals.

set_option maxRecDepth 40000 in
theorem cexRun_149 : runFrom cexFrames P0 149 = S149 := by decide

set_option maxRecDepth 40000 in
theorem cexRun_150 : runFrom cexFrames P0 150 = S150 := by
  rw [show (150 : ℕ) = 149 + 1 from rfl, runFrom, cexRun_149]
  decide

set_option maxRecDepth 40000 in
theorem cexRun_150_to_328 : runFrom (fun n => cexFrames (150 + n)) S150 178 = S328 := by
  decide

theorem cexRun_328 : runFrom cexFrames P0 328 = S328 := by
  rw [show (328 : ℕ) = 150 + 178 from rfl, runFrom_add, cexRun_150, cexRun_150_to_328]

set_option maxRecDepth 40000 in
theorem cexRun_329_shield : (runFrom cexFrames P0 329).2.player.shield = 93 := by
  rw [show (329 : ℕ) = 328 + 1 from rfl, runFrom, cexRun_328]
  decide

set_option maxRecDepth 40000 in
theorem cexRun_397_health : (runFrom cexFrames P0 397).2.player.health = -5 := by
  rw [show (397 : ℕ) = 150 + 247 from rfl, runFrom_add, cexRun_150,
    show (247 : ℕ) = 178 + 69 from rfl, runFrom_add, cexRun_150_to_328]
  decide

theorem validFrame_frameIdle : validFrame frameIdle := by
  refine ⟨by decide, by decide, by decide, by decide, fun i => ?_, fun j => ?_⟩
  · show unitQ (0.5 : Q); decide
  · exact ⟨show unitQ (0 : Q) by decide, show unitQ (0 : Q) by decide,
      show unitQ (0 : Q) by decide, show unitQ (0 : Q) by decide,
      show unitQ (0 : Q) by decide⟩

theorem validFrame_frameSpawn : validFrame frameSpawn := by
  refine ⟨by decide, by decide, by decide, by decide, fun i => ?_, fun j => ?_⟩
  · show unitQ (0.5 : Q); decide
  · exact ⟨show unitQ (0 : Q) by decide, show unitQ (0 : Q) by decide,
      show unitQ (0 : Q) by decide, show unitQ (0 : Q) by decide,
      show unitQ (0 : Q) by decide⟩

theorem validFrame_frameShoot : validFrame frameShoot := by
  refine ⟨by decide, by decide, by decide, by decide, fun i => ?_, fun j => ?_⟩
  · by_cases h : i = 0 <;> simp only [frameShoot, h, if_true, if_false] <;> decide
  · exact ⟨show unitQ (0 : Q) by decide, show unitQ (0 : Q) by decide,
      show unitQ (0 : Q) by decide, show unitQ (0 : Q) by decide,
      show unitQ (0 : Q) by decide⟩

theorem cexFrames_valid : ∀ n, validFrame (cexFrames n) := by
  intro n
  unfold cexFrames
  split
  · exact validFrame_frameSpawn
  · split
    · exact validFrame_frameShoot
    · exact validFrame_frameIdle

/-- C8: with `gameOver` or `paused` set, invoking the simulation step
leaves the refs and the whole world state unchanged: the call is a no-op,
not a fault, even with the fire control held. -/
theorem c8_step_noop_when_over_or_paused (f : Frame) (r : Refs) (s : GameState)
    (h : s.gameOver = true ∨ s.paused = true) : stepFull f (r, s) = (r, s) := by
  unfold stepFull
  rcases h with h | h <;> simp [h]

theorem c8_step_noop_witness :
    pausedState.paused = true ∧
      stepFull { frameIdle with keys := fun _ => true } (initialRefs, pausedState) =
        (initialRefs, pausedState) :=
  ⟨rfl, c8_step_noop_when_over_or_paused _ initialRefs pausedState (Or.inr rfl)⟩

/-- C1: an enemy projectile overlapping the player applies shield-first
absorption: with positive shield the damage comes off the shield, any
negative remainder carries over to health and the shield clamps to 0;
with shield 0 the damage hits health directly; health floor-clamps at 0.
In particular shield 10 / damage 25 loses exactly 15 health (health ≥ 15),
shield 30 / damage 10 leaves health unchanged, and shield 0 / damage 8
costs exactly 8 health, floor-clamped at 0.  The second conjunct ties
`damagePlayer` to the enemy-projectile phase: an overlapping projectile
resolves the player through `damagePlayer`. -/
theorem c1_shield_first_absorption :
    (∀ (now dmg : ℤ) (p : Player), 0 ≤ dmg →
      ((0 < p.shield →
          (damagePlayer now p dmg).shield = max (p.shield - dmg) 0 ∧
            (damagePlayer now p dmg).health = max (p.health - max (dmg - p.shield) 0) 0) ∧
        (p.shield = 0 →
          (damagePlayer now p dmg).shield = 0 ∧
            (damagePlayer now p dmg).health = max (p.health - dmg) 0) ∧
        (p.shield = 10 → dmg = 25 → 15 ≤ p.health →
          (damagePlayer now p dmg).shield = 0 ∧
            (damagePlayer now p dmg).health = p.health - 15) ∧
        (p.shield = 30 → dmg = 10 → 0 ≤ p.health →
          (damagePlayer now p dmg).shield = 20 ∧
            (damagePlayer now p dmg).health = p.health) ∧
        (p.shield = 0 → dmg = 8 →
          (damagePlayer now p dmg).health = max (p.health - 8) 0))) ∧
    (∀ (f : Frame) (pr : ℕ → ParticleRand) (b : AlienBullet) (rest : List AlienBullet)
        (p : Player) (k : ℕ),
      ¬(b.y > CANVAS_HEIGHT) → checkCollision b.rect p.rect = true →
      (alienScan f pr (b :: rest) p k).2.1 =
        (alienScan f pr rest (damagePlayer f.now p b.damage) (k + 8)).2.1) := by
  constructor
  · intro now dmg p h0
    refine ⟨fun hs => ?_, fun hs => ?_, fun hs hd hh => ?_, fun hs hd hh => ?_, fun hs hd => ?_⟩ <;>
      simp only [damagePlayer, decide_eq_true_eq] <;>
      split_ifs <;> simp_all <;> omega
  · intro f pr b rest p k hy hc
    simp only [alienScan, decide_eq_true_eq]
    rw [if_neg hy, if_pos hc]

theorem c1_shield_first_absorption_witness :
    (0 : ℤ) ≤ 25 ∧ 0 < ({ initialPlayer with shield := 10 } : Player).shield ∧
      (damagePlayer 0 { initialPlayer with shield := 10 } 25).shield = max (10 - 25) 0 ∧
      (damagePlayer 0 { initialPlayer with shield := 10 } 25).health =
        max (100 - max (25 - 10) 0) 0 := by
  have h := (c1_shield_first_absorption.1 0 25 { initialPlayer with shield := 10 }
    (by decide)).1 (by decide)
  exact ⟨by decide, by decide, h.1, h.2⟩

/-- C4 counterexample: the claim "a body never overlaps a zero-area box
against anything" fails: a zero-area box strictly inside a body does
overlap it, in both argument orders. -/
theorem c4_zero_area_counterexample :
    (Rect.mk 5 5 0 0).width.val = 0 ∧ (Rect.mk 5 5 0 0).height.val = 0 ∧
      0 < (Rect.mk 5 5 0 0).width.den ∧ 0 < (Rect.mk 5 5 0 0).height.den ∧
      checkCollision (Rect.mk 0 0 10 10) (Rect.mk 5 5 0 0) = true ∧
      checkCollision (Rect.mk 5 5 0 0) (Rect.mk 0 0 10 10) = true := by
  refine ⟨?_, ?_, by decide, by decide, by decide, by decide⟩ <;> simp [Q.val] <;>
    exact Or.inl rfl

/-- C4 amended: a zero-area box (zero width or zero height) never
overlaps ITSELF; overlap of a zero-area box against another body can
still hold (see the counterexample), so "against anything" is dropped. -/
theorem c4_zero_area_self (B : Rect) (hw : 0 < B.width.den) (hh : 0 < B.height.den)
    (h : B.width.val = 0 ∨ B.height.val = 0) : checkCollision B B = false := by
  have numZero : ∀ q : Q, 0 < q.den → q.val = 0 → q.num = 0 := by
    intro q hq hv
    unfold Q.val at hv
    rcases div_eq_zero_iff.1 hv with h' | h'
    · exact_mod_cast h'
    · exfalso
      have : (q.den : ℚ) ≠ 0 := by exact_mod_cast hq.ne'
      exact this h'
  rcases h with h | h
  · have h0 : B.width.num = 0 := numZero _ hw h
    have hx : ¬(B.x < B.x + B.width) := by
      rw [Q.lt_def, Q.add_num, Q.add_den, h0]
      have : B.x.num * (B.x.den * B.width.den) = (B.x.num * B.width.den + 0 * B.x.den) * B.x.den := by
        ring
      rw [this]
      exact lt_irrefl _
    simp [checkCollision, hx]
  · have h0 : B.height.num = 0 := numZero _ hh h
    have hy : ¬(B.y < B.y + B.height) := by
      rw [Q.lt_def, Q.add_num, Q.add_den, h0]
      have : B.y.num * (B.y.den * B.height.den) = (B.y.num * B.height.den + 0 * B.y.den) * B.y.den := by
        ring
      rw [this]
      exact lt_irrefl _
    simp [checkCollision, hy]

theorem c4_zero_area_self_witness :
    0 < (Rect.mk 1 1 0 7).width.den ∧ 0 < (Rect.mk 1 1 0 7).height.den ∧
      checkCollision (Rect.mk 1 1 0 7) (Rect.mk 1 1 0 7) = false :=
  ⟨by decide, by decide,
    c4_zero_area_self (Rect.mk 1 1 0 7) (by decide) (by decide)
      (Or.inl (by simp [Q.val]; exact Or.inl rfl))⟩

/-- C5: the wave counter bumps by exactly 1 in a live tick precisely when
the end-of-tick score is positive, an exact multiple of 250, and changed
during the tick; a heavy kill jumping 240 to 265 does not bump the wave,
a scout kill landing exactly on 250 does. -/
theorem c5_wave_progression :
    (∀ (f : Frame) (r : Refs) (s : GameState), s.gameOver = false → s.paused = false →
      (stepFull f (r, s)).2.wave =
        if 0 < (stepFull f (r, s)).2.score ∧ (stepFull f (r, s)).2.score % 250 = 0 ∧
            (stepFull f (r, s)).2.score ≠ s.score
        then s.wave + 1 else s.wave) ∧
    (stepFull frameIdle (initialRefs, heavyKillState)).2.score = 265 ∧
    (stepFull frameIdle (initialRefs, heavyKillState)).2.wave = heavyKillState.wave ∧
    (stepFull frameIdle (initialRefs, scoutKillState)).2.score = 250 ∧
    (stepFull frameIdle (initialRefs, scoutKillState)).2.wave = scoutKillState.wave + 1 := by
  refine ⟨?_, by decide, by decide, by decide, by decide⟩
  intro f r s hg hp
  show (stepFull f (r, s)).2.wave = _
  rw [stepFull, if_neg (by simp [hg, hp])]
  rfl

theorem c5_wave_progression_witness :
    heavyKillState.gameOver = false ∧ heavyKillState.paused = false ∧
      (stepFull frameIdle (initialRefs, heavyKillState)).2.wave =
        (if 0 < (stepFull frameIdle (initialRefs, heavyKillState)).2.score ∧
            (stepFull frameIdle (initialRefs, heavyKillState)).2.score % 250 = 0 ∧
            (stepFull frameIdle (initialRefs, heavyKillState)).2.score ≠ heavyKillState.score
         then heavyKillState.wave + 1 else heavyKillState.wave) :=
  ⟨rfl, rfl, c5_wave_progression.1 frameIdle initialRefs heavyKillState rfl rfl⟩

-- Facts about the bounce and the contact filter.

theorem bounceEnemy_rect (e : Enemy) : (bounceEnemy e).rect = e.rect := by
  unfold bounceEnemy
  split <;> rfl

theorem bounceEnemy_type (e : Enemy) : (bounceEnemy e).type = e.type := by
  unfold bounceEnemy
  split <;> rfl

theorem bounceEnemy_health (e : Enemy) : (bounceEnemy e).health = e.health := by
  unfold bounceEnemy
  split <;> rfl

/-- Effect of the enemy-update/contact filter: the player keeps every
field except health, which drops by the total contact damage of the
enemies that overlap the player's box (and are not past the bottom); the
surviving enemies are exactly the non-exited non-overlapping ones, with
the bounce applied. -/
theorem contactScan_spec (pr : ℕ → ParticleRand) :
    ∀ (es : List Enemy) (p : Player) (k : ℕ),
      (contactScan pr p k es).1 = { p with health := p.health - contactTotal p es } ∧
        (contactScan pr p k es).2.1 = (es.filter (keepEnemy p)).map bounceEnemy := by
  intro es
  induction es with
  | nil =>
    intro p k
    refine ⟨?_, rfl⟩
    simp only [contactTotal, List.filter_nil, List.map_nil, List.sum_nil, sub_zero]
    rfl
  | cons e rest ih =>
    intro p k
    rw [contactScan]
    by_cases hy : decide (e.y > CANVAS_HEIGHT) = true
    · rw [if_pos hy]
      have hv : victimEnemy p e = false := by simp [victimEnemy, hy]
      have hk : keepEnemy p e = false := by simp [keepEnemy, hy]
      rcases ih p k with ⟨ih1, ih2⟩
      refine ⟨?_, ?_⟩
      · rw [ih1]
        have : contactTotal p rest = contactTotal p (e :: rest) := by
          simp [contactTotal, List.filter_cons, hv]
        rw [this]
      · rw [ih2]
        simp [List.filter_cons, hk]
    · rw [if_neg hy]
      by_cases hc : checkCollision (bounceEnemy e).rect p.rect = true
      · rw [if_pos hc]
        rw [bounceEnemy_rect] at hc
        have hv : victimEnemy p e = true := by
          simp only [Bool.not_eq_true] at hy
          simp [victimEnemy, hy, hc]
        have hk : keepEnemy p e = false := by simp [keepEnemy, hc]
        have hkeq : keepEnemy { p with health := p.health - contactDamage (bounceEnemy e).type } =
            keepEnemy p := rfl
        have htot : contactTotal { p with health := p.health - contactDamage (bounceEnemy e).type }
            rest = contactTotal p rest := rfl
        rcases ih { p with health := p.health - contactDamage (bounceEnemy e).type }
          (k + 10) with ⟨ih1, ih2⟩
        refine ⟨?_, ?_⟩
        · show (contactScan pr { p with health := p.health - contactDamage (bounceEnemy e).type }
            (k + 10) rest).1 = _
          rw [ih1, htot, bounceEnemy_type]
          have harith : p.health - contactDamage e.type - contactTotal p rest =
              p.health - contactTotal p (e :: rest) := by
            have : contactTotal p (e :: rest) = contactDamage e.type + contactTotal p rest := by
              simp [contactTotal, List.filter_cons, hv]
            rw [this]
            omega
          rw [harith]
        · show (contactScan pr { p with health := p.health - contactDamage (bounceEnemy e).type }
            (k + 10) rest).2.1 = _
          rw [ih2, hkeq]
          simp [List.filter_cons, hk]
      · rw [if_neg hc]
        rw [bounceEnemy_rect] at hc
        have hk : keepEnemy p e = true := by
          simp only [Bool.not_eq_true] at hy hc
          simp [keepEnemy, hy, hc]
        have hv : victimEnemy p e = false := by
          simp only [Bool.not_eq_true] at hc
          simp [victimEnemy, hc]
        rcases ih p k with ⟨ih1, ih2⟩
        refine ⟨?_, ?_⟩
        · show (contactScan pr p k rest).1 = _
          rw [ih1]
          have : contactTotal p rest = contactTotal p (e :: rest) := by
            simp [contactTotal, List.filter_cons, hv]
          rw [this]
        · show bounceEnemy e :: (contactScan pr p k rest).2.1 = _
          rw [ih2]
          simp [List.filter_cons, hk]

/-- C7: every enemy overlapping the player's box in the contact phase
deals its type damage (scout 15, heavy 25, boss 40) straight to health,
leaves the shield untouched, and is removed; contact kills award no
score (shown on a concrete full tick). -/
theorem c7_contact_damage :
    (∀ (pr : ℕ → ParticleRand) (p : Player) (k : ℕ) (es : List Enemy),
      (contactScan pr p k es).1.shield = p.shield ∧
        (contactScan pr p k es).1.health = p.health - contactTotal p es ∧
        (contactScan pr p k es).2.1 = (es.filter (keepEnemy p)).map bounceEnemy) ∧
    contactDamage EnemyType.scout = 15 ∧ contactDamage EnemyType.heavy = 25 ∧
    contactDamage EnemyType.boss = 40 ∧
    (stepFull frameIdle (initialRefs, contactState)).2.player.health =
      contactState.player.health - 15 ∧
    (stepFull frameIdle (initialRefs, contactState)).2.player.shield =
      contactState.player.shield ∧
    (stepFull frameIdle (initialRefs, contactState)).2.score = contactState.score ∧
    (stepFull frameIdle (initialRefs, contactState)).2.enemies = [] := by
  refine ⟨?_, rfl, rfl, rfl, by decide, by decide, by decide, by decide⟩
  intro pr p k es
  rcases contactScan_spec pr es p k with ⟨h1, h2⟩
  exact ⟨by rw [h1], by rw [h1], h2⟩

-- Facts about the bullet/enemy inner scan.

theorem shootScanRev_none_iff (pr : ℕ → ParticleRand) (b : Bullet) (k : ℕ) :
    ∀ es : List Enemy,
      shootScanRev pr b k es = none ↔ ∀ e ∈ es, checkCollision b.rect e.rect = false := by
  intro es
  induction es with
  | nil => simp [shootScanRev]
  | cons e rest ih =>
    rw [shootScanRev]
    by_cases hc : checkCollision b.rect e.rect = true
    · rw [if_pos hc]
      constructor
      · intro h
        exfalso
        dsimp only at h
        split at h <;> simp at h
      · intro h
        exact absurd (h e (List.mem_cons_self e rest)) (by simp [hc])
    · rw [if_neg hc]
      simp only [Bool.not_eq_true] at hc
      cases hrec : shootScanRev pr b k rest with
      | none =>
        simp only [hrec]
        constructor
        · intro _ e' he'
          rcases List.mem_cons.1 he' with rfl | hm
          · exact hc
          · exact (ih.1 hrec) e' hm
        · intro _
          trivial
      | some r =>
        simp only [hrec]
        constructor
        · intro h
          exact Option.noConfusion h
        · intro h
          have : shootScanRev pr b k rest = none :=
            ih.2 fun e' he' => h e' (List.mem_cons_of_mem _ he')
          rw [this] at hrec
          exact Option.noConfusion hrec

theorem shootScanRev_skip (pr : ℕ → ParticleRand) (b : Bullet) (k : ℕ) :
    ∀ (l : List Enemy), (∀ e ∈ l, checkCollision b.rect e.rect = false) →
      ∀ es, shootScanRev pr b k (l ++ es) =
        (shootScanRev pr b k es).map fun r => (l ++ r.1, r.2.1, r.2.2.1, r.2.2.2) := by
  intro l
  induction l with
  | nil =>
    intro _ es
    cases h : shootScanRev pr b k es <;> simp [h]
  | cons x l ih =>
    intro h es
    have hx : checkCollision b.rect x.rect = false := h x (List.mem_cons_self x l)
    rw [List.cons_append, shootScanRev, if_neg (by simp [hx]),
      ih (fun e he => h e (List.mem_cons_of_mem _ he)) es]
    cases h' : shootScanRev pr b k es <;> simp [h']

theorem shootScanRev_hit (pr : ℕ → ParticleRand) (b : Bullet) (k : ℕ)
    (pre post : List Enemy) (e : Enemy)
    (hc : checkCollision b.rect e.rect = true)
    (hpost : ∀ x ∈ post, checkCollision b.rect x.rect = false) :
    (shootScanRev pr b k (pre ++ e :: post).reverse).map (fun r => (r.1.reverse, r.2.1)) =
      some (pre ++ (if e.health - 1 ≤ 0 then [] else [{ e with health := e.health - 1 }]) ++ post,
        if e.health - 1 ≤ 0 then points e.type else 0) := by
  have hrev : (pre ++ e :: post).reverse = post.reverse ++ e :: pre.reverse := by
    simp [List.reverse_append]
  rw [hrev, shootScanRev_skip pr b k post.reverse
    (fun x hx => hpost x (List.mem_reverse.1 hx)) (e :: pre.reverse)]
  rw [shootScanRev, if_pos hc]
  by_cases hkill : e.health - 1 ≤ 0
  · rw [if_pos (by simpa using hkill), if_pos hkill, if_pos hkill]
    simp [List.reverse_append]
  · rw [if_neg (by simpa using hkill), if_neg hkill, if_neg hkill]
    simp [List.reverse_append]

/-- C6: in the bullet/enemy phase a projectile resolves against at most
one enemy: the scan either misses every enemy and keeps the bullet, or
stops at its first overlap (the scan runs from the END of the enemy
array), decrements exactly that enemy's health by 1 and leaves every
other enemy untouched; an enemy dropping to health ≤ 0 is removed and
scores 10/25/50 for scout/heavy/boss, so killing one of each from score
0 yields 85 (shown on a concrete tick). -/
theorem c6_projectile_resolution :
    (∀ (pr : ℕ → ParticleRand) (b : Bullet) (k : ℕ) (es : List Enemy),
      shootScanRev pr b k es.reverse = none ↔
        ∀ e ∈ es, checkCollision b.rect e.rect = false) ∧
    (∀ (pr : ℕ → ParticleRand) (b : Bullet) (k : ℕ) (pre post : List Enemy) (e : Enemy),
      checkCollision b.rect e.rect = true →
      (∀ x ∈ post, checkCollision b.rect x.rect = false) →
      (shootScanRev pr b k (pre ++ e :: post).reverse).map (fun r => (r.1.reverse, r.2.1)) =
        some (pre ++ (if e.health - 1 ≤ 0 then [] else [{ e with health := e.health - 1 }]) ++ post,
          if e.health - 1 ≤ 0 then points e.type else 0)) ∧
    points EnemyType.scout = 10 ∧ points EnemyType.heavy = 25 ∧ points EnemyType.boss = 50 ∧
    (stepFull frameIdle (initialRefs, rankState)).2.score = 85 ∧
    (stepFull frameIdle (initialRefs, rankState)).2.enemies = [] := by
  refine ⟨?_, ?_, rfl, rfl, rfl, by decide, by decide⟩
  · intro pr b k es
    rw [shootScanRev_none_iff]
    constructor
    · intro h e he
      exact h e (List.mem_reverse.2 he)
    · intro h e he
      exact h e (List.mem_reverse.1 he)
  · intro pr b k pre post e hc hpost
    exact shootScanRev_hit pr b k pre post e hc hpost

theorem c6_projectile_resolution_witness :
    checkCollision (testBullet 110).rect rankScout.rect = true ∧
      (shootScanRev (fun _ => prZero) (testBullet 110) 0
          (([] ++ rankScout :: []) : List Enemy).reverse).map (fun r => (r.1.reverse, r.2.1)) =
        some (([] ++ (if rankScout.health - 1 ≤ 0 then []
            else [{ rankScout with health := rankScout.health - 1 }]) ++ [] : List Enemy),
          if rankScout.health - 1 ≤ 0 then points rankScout.type else 0) :=
  ⟨by decide, c6_projectile_resolution.2.1 (fun _ => prZero) (testBullet 110) 0 [] [] rankScout
    (by decide) (fun x hx => absurd hx (List.not_mem_nil x))⟩

-- Preservation of the inductive invariant, phase by phase.

theorem spawnEnemy_health (w : ℕ) (f : Frame) :
    (spawnEnemy w f).health = 1 ∨ (spawnEnemy w f).health = 3 ∨ (spawnEnemy w f).health = 5 := by
  unfold spawnEnemy
  cases pickType w f.typeRoll <;> simp

theorem spawnEnemy_health_pos (w : ℕ) (f : Frame) : 1 ≤ (spawnEnemy w f).health := by
  rcases spawnEnemy_health w f with h | h | h <;> omega

theorem enemiesIn_health (f : Frame) (r : Refs) (s : GameState)
    (h : ∀ e ∈ s.enemies, 1 ≤ e.health) : ∀ e ∈ enemiesIn f r s, 1 ≤ e.health := by
  intro e he
  obtain ⟨e0, he0, rfl⟩ := List.mem_map.1 he
  have : 1 ≤ e0.health := by
    unfold spawned at he0
    split at he0
    · rcases List.mem_append.1 he0 with h' | h'
      · exact h e0 h'
      · rw [List.mem_singleton.1 h']
        exact spawnEnemy_health_pos s.wave f
    · exact h e0 he0
  exact this

theorem contactTotal_nonneg (p : Player) (es : List Enemy) : 0 ≤ contactTotal p es := by
  apply List.sum_nonneg
  intro x hx
  obtain ⟨e, _, rfl⟩ := List.mem_map.1 hx
  cases e.type <;> simp [contactDamage]

theorem contactScan_enemies_health (pr : ℕ → ParticleRand) (p : Player) (k : ℕ)
    (es : List Enemy) (h : ∀ e ∈ es, 1 ≤ e.health) :
    ∀ e ∈ (contactScan pr p k es).2.1, 1 ≤ e.health := by
  intro e he
  rw [(contactScan_spec pr es p k).2] at he
  obtain ⟨e0, he0, rfl⟩ := List.mem_map.1 he
  rw [bounceEnemy_health]
  exact h e0 (List.mem_filter.1 he0).1

theorem shootScanRev_health (pr : ℕ → ParticleRand) (b : Bullet) (k : ℕ) :
    ∀ (es : List Enemy) (r : List Enemy × ℤ × List Particle × ℕ),
      shootScanRev pr b k es = some r → (∀ e ∈ es, 1 ≤ e.health) →
      ∀ e ∈ r.1, 1 ≤ e.health := by
  intro es
  induction es with
  | nil => intro r hr; exact absurd hr (by simp [shootScanRev])
  | cons e rest ih =>
    intro r hr h
    rw [shootScanRev] at hr
    by_cases hc : checkCollision b.rect e.rect = true
    · rw [if_pos hc] at hr
      dsimp only at hr
      by_cases hk : decide ((e.health - 1 : ℤ) ≤ 0) = true
      · rw [if_pos hk] at hr
        injection hr with hr'
        subst hr'
        intro x hx
        exact h x (List.mem_cons_of_mem _ hx)
      · rw [if_neg hk] at hr
        injection hr with hr'
        subst hr'
        intro x hx
        rcases List.mem_cons.1 hx with rfl | hm
        · simp only [decide_eq_true_eq, not_le] at hk
          show 1 ≤ e.health - 1
          omega
        · exact h x (List.mem_cons_of_mem _ hm)
    · rw [if_neg hc] at hr
      cases hrec : shootScanRev pr b k rest with
      | none => rw [hrec] at hr; exact absurd hr (by simp)
      | some r' =>
        rw [hrec] at hr
        injection hr with hr'
        subst hr'
        intro x hx
        rcases List.mem_cons.1 hx with rfl | hm
        · exact h x (List.mem_cons_self _ _)
        · exact ih r' hrec (fun e' he' => h e' (List.mem_cons_of_mem _ he')) x hm

theorem bulletPhase_enemies_health (pr : ℕ → ParticleRand) :
    ∀ (bs : List Bullet) (es : List Enemy) (sc : ℤ) (k : ℕ),
      (∀ e ∈ es, 1 ≤ e.health) → ∀ e ∈ (bulletPhase pr bs es sc k).2.1, 1 ≤ e.health := by
  intro bs
  induction bs with
  | nil => intro es sc k h; exact h
  | cons b bs ih =>
    intro es sc k h
    rw [bulletPhase]
    cases hscan : shootScanRev pr b k es.reverse with
    | none => exact ih es sc k h
    | some hit =>
      have hhit : ∀ e ∈ hit.1, 1 ≤ e.health :=
        shootScanRev_health pr b k es.reverse hit hscan
          (fun e he => h e (List.mem_reverse.1 he))
      exact ih hit.1.reverse (sc + hit.2.1) hit.2.2.2
        (fun e he => hhit e (List.mem_reverse.1 he))

theorem damagePlayer_invariants (now dmg : ℤ) (p : Player) (hd : 0 ≤ dmg) (hs : 0 ≤ p.shield) :
    0 ≤ (damagePlayer now p dmg).shield ∧ (damagePlayer now p dmg).shield ≤ p.shield ∧
      (damagePlayer now p dmg).health ≤ max p.health 0 ∧
      (damagePlayer now p dmg).maxHealth = p.maxHealth ∧
      (damagePlayer now p dmg).maxShield = p.maxShield := by
  simp only [damagePlayer, decide_eq_true_eq]
  split_ifs <;> simp_all <;> omega

theorem alienScan_player (f : Frame) (pr : ℕ → ParticleRand) :
    ∀ (l : List AlienBullet) (p : Player) (k : ℕ),
      (∀ b ∈ l, 0 ≤ b.damage) → 0 ≤ p.shield →
      0 ≤ (alienScan f pr l p k).2.1.shield ∧
        (alienScan f pr l p k).2.1.shield ≤ p.shield ∧
        (alienScan f pr l p k).2.1.health ≤ max p.health 0 ∧
        (alienScan f pr l p k).2.1.maxHealth = p.maxHealth ∧
        (alienScan f pr l p k).2.1.maxShield = p.maxShield := by
  intro l
  induction l with
  | nil =>
    intro p k _ hs
    exact ⟨hs, le_refl _, le_max_left _ _, rfl, rfl⟩
  | cons b rest ih =>
    intro p k hd hs
    rw [alienScan]
    by_cases hy : decide (b.y > CANVAS_HEIGHT) = true
    · rw [if_pos hy]
      exact ih p k (fun b' hb' => hd b' (List.mem_cons_of_mem _ hb')) hs
    · rw [if_neg hy]
      by_cases hc : checkCollision b.rect p.rect = true
      · rw [if_pos hc]
        dsimp only
        have hdmg := damagePlayer_invariants f.now b.damage p
          (hd b (List.mem_cons_self _ _)) hs
        have hrec := ih (damagePlayer f.now p b.damage) (k + 8)
          (fun b' hb' => hd b' (List.mem_cons_of_mem _ hb')) hdmg.1
        refine ⟨hrec.1, le_trans hrec.2.1 hdmg.2.1, ?_, ?_, ?_⟩
        · have h1 := hrec.2.2.1
          have h2 := hdmg.2.2.1
          omega
        · rw [hrec.2.2.2.1, hdmg.2.2.2.1]
        · rw [hrec.2.2.2.2, hdmg.2.2.2.2]
      · rw [if_neg hc]
        exact ih p k (fun b' hb' => hd b' (List.mem_cons_of_mem _ hb')) hs

theorem alienScan_damages (f : Frame) (pr : ℕ → ParticleRand) :
    ∀ (l : List AlienBullet) (p : Player) (k : ℕ), (∀ b ∈ l, 0 ≤ b.damage) →
      ∀ b ∈ (alienScan f pr l p k).1, 0 ≤ b.damage := by
  intro l
  induction l with
  | nil => intro p k _ b hb; exact absurd hb (List.not_mem_nil b)
  | cons b rest ih =>
    intro p k hd b' hb'
    rw [alienScan] at hb'
    by_cases hy : decide (b.y > CANVAS_HEIGHT) = true
    · rw [if_pos hy] at hb'
      exact ih p k (fun x hx => hd x (List.mem_cons_of_mem _ hx)) b' hb'
    · rw [if_neg hy] at hb'
      by_cases hc : checkCollision b.rect p.rect = true
      · rw [if_pos hc] at hb'
        exact ih (damagePlayer f.now p b.damage) (k + 8)
          (fun x hx => hd x (List.mem_cons_of_mem _ hx)) b' hb'
      · rw [if_neg hc] at hb'
        rcases List.mem_cons.1 hb' with rfl | hm
        · exact hd _ (List.mem_cons_self _ _)
        · exact ih p k (fun x hx => hd x (List.mem_cons_of_mem _ hx)) b' hm

theorem enemyFire_enemies_health (f : Frame) :
    ∀ (i : ℕ) (es : List Enemy), (∀ e ∈ es, 1 ≤ e.health) →
      ∀ e ∈ (enemyFire f i es).1, 1 ≤ e.health := by
  intro i es
  induction es generalizing i with
  | nil => intro _ e he; exact absurd he (List.not_mem_nil e)
  | cons e rest ih =>
    intro h e' he'
    rw [enemyFire] at he'
    split at he'
    · rcases List.mem_cons.1 he' with rfl | hm
      · exact h e (List.mem_cons_self _ _)
      · exact ih (i + 1) (fun x hx => h x (List.mem_cons_of_mem _ hx)) e' hm
    · rcases List.mem_cons.1 he' with rfl | hm
      · exact h e' (List.mem_cons_self _ _)
      · exact ih (i + 1) (fun x hx => h x (List.mem_cons_of_mem _ hx)) e' hm

theorem enemyFire_damages (f : Frame) :
    ∀ (i : ℕ) (es : List Enemy), ∀ b ∈ (enemyFire f i es).2, 0 ≤ b.damage := by
  intro i es
  induction es generalizing i with
  | nil => intro b hb; exact absurd hb (List.not_mem_nil b)
  | cons e rest ih =>
    intro b hb
    rw [enemyFire] at hb
    split at hb
    · rcases List.mem_cons.1 hb with rfl | hm
      · cases e.type <;> simp [alienDamage]
      · exact ih (i + 1) b hm
    · exact ih (i + 1) b hb

theorem regenPhase_facts (p : Player) :
    (regenPhase p).health = p.health ∧ (regenPhase p).maxHealth = p.maxHealth ∧
      (regenPhase p).maxShield = p.maxShield ∧
      (0 ≤ p.shield → 0 ≤ (regenPhase p).shield) ∧
      (p.shield ≤ p.maxShield → (regenPhase p).shield ≤ p.maxShield) := by
  simp only [regenPhase, Bool.and_eq_true, decide_eq_true_eq]
  split_ifs <;> simp_all <;> omega

theorem moveAliens_damages (l : List AlienBullet) (h : ∀ b ∈ l, 0 ≤ b.damage) :
    ∀ b ∈ moveAliens l, 0 ≤ b.damage := by
  intro b hb
  obtain ⟨b0, hb0, rfl⟩ := List.mem_map.1 hb
  exact h b0 hb0

/-- One live tick preserves the invariant. -/
theorem inv_step (f : Frame) (r : Refs) (s : GameState) (h : Inv s) :
    Inv (stepFull f (r, s)).2 := by
  unfold stepFull
  by_cases hover : (s.gameOver || s.paused) = true
  · rw [if_pos hover]
    exact h
  · rw [if_neg hover]
    obtain ⟨hmx, hms, hs0, hsm, hhm, _, hbd, heh⟩ := h
    have hcp := (contactScan_spec f.prand (enemiesIn f r s) (pMoved f r s) 0).1
    have hcp_shield : (contactRes f r s).1.shield = s.player.shield := by
      rw [show (contactRes f r s).1 = (contactScan f.prand (pMoved f r s) 0
        (enemiesIn f r s)).1 from rfl, hcp]
      rfl
    have hcp_health : (contactRes f r s).1.health ≤ s.player.health := by
      rw [show (contactRes f r s).1 = (contactScan f.prand (pMoved f r s) 0
        (enemiesIn f r s)).1 from rfl, hcp]
      have := contactTotal_nonneg (pMoved f r s) (enemiesIn f r s)
      show (pMoved f r s).health - _ ≤ s.player.health
      have hpm : (pMoved f r s).health = s.player.health := rfl
      omega
    have hcp_maxH : (contactRes f r s).1.maxHealth = s.player.maxHealth := by
      rw [show (contactRes f r s).1 = (contactScan f.prand (pMoved f r s) 0
        (enemiesIn f r s)).1 from rfl, hcp]
      rfl
    have hcp_maxS : (contactRes f r s).1.maxShield = s.player.maxShield := by
      rw [show (contactRes f r s).1 = (contactScan f.prand (pMoved f r s) 0
        (enemiesIn f r s)).1 from rfl, hcp]
      rfl
    have hmv := moveAliens_damages s.alienBullets hbd
    have halien := alienScan_player f f.prand (moveAliens s.alienBullets)
      (contactRes f r s).1 (bulletRes f r s).2.2.2.2 hmv (hcp_shield ▸ hs0)
    have hregen := regenPhase_facts (alienRes f r s).2.1
    have halien_eq : (alienRes f r s).2.1 = (alienScan f f.prand (moveAliens s.alienBullets)
      (contactRes f r s).1 (bulletRes f r s).2.2.2.2).2.1 := rfl
    refine ⟨?_, ?_, ?_, ?_, ?_, ?_, ?_, ?_⟩
    · show (regenPhase (alienRes f r s).2.1).maxHealth = 100
      rw [hregen.2.1, halien_eq, halien.2.2.2.1, hcp_maxH, hmx]
    · show (regenPhase (alienRes f r s).2.1).maxShield = 100
      rw [hregen.2.2.1, halien_eq, halien.2.2.2.2, hcp_maxS, hms]
    · show 0 ≤ (regenPhase (alienRes f r s).2.1).shield
      exact hregen.2.2.2.1 (halien_eq ▸ halien.1)
    · show (regenPhase (alienRes f r s).2.1).shield ≤
        (regenPhase (alienRes f r s).2.1).maxShield
      rw [hregen.2.2.1]
      apply hregen.2.2.2.2
      rw [halien_eq, halien.2.2.2.2, hcp_maxS]
      calc (alienScan f f.prand (moveAliens s.alienBullets) (contactRes f r s).1
            (bulletRes f r s).2.2.2.2).2.1.shield
          ≤ (contactRes f r s).1.shield := halien.2.1
        _ = s.player.shield := hcp_shield
        _ ≤ s.player.maxShield := hsm
    · show (regenPhase (alienRes f r s).2.1).health ≤
        (regenPhase (alienRes f r s).2.1).maxHealth
      rw [hregen.1, hregen.2.1, halien_eq, halien.2.2.2.1, hcp_maxH, hmx]
      have h1 := halien.2.2.1
      have h2 := hcp_health
      have h3 : s.player.health ≤ 100 := by omega
      omega
    · by_cases hh : 0 ≤ (regenPhase (alienRes f r s).2.1).health
      · exact Or.inl hh
      · refine Or.inr ?_
        show (s.gameOver || decide ((regenPhase (alienRes f r s).2.1).health ≤ 0)) = true
        have : (regenPhase (alienRes f r s).2.1).health ≤ 0 := by omega
        simp [this]
    · intro b hb
      rcases List.mem_append.1 hb with hb' | hb'
      · exact alienScan_damages f f.prand (moveAliens s.alienBullets) (contactRes f r s).1
          (bulletRes f r s).2.2.2.2 hmv b hb'
      · exact enemyFire_damages f 0 (bulletRes f r s).2.1 b hb'
    · intro e he
      have h1 : ∀ e' ∈ enemiesIn f r s, 1 ≤ e'.health := enemiesIn_health f r s heh
      have h2 : ∀ e' ∈ (contactRes f r s).2.1, 1 ≤ e'.health :=
        contactScan_enemies_health f.prand (pMoved f r s) 0 (enemiesIn f r s) h1
      have h3 : ∀ e' ∈ (bulletRes f r s).2.1, 1 ≤ e'.health :=
        bulletPhase_enemies_health f.prand (bulletsIn f r s) (contactRes f r s).2.1
          s.score (contactRes f r s).2.2.2 h2
      exact enemyFire_enemies_health f 0 (bulletRes f r s).2.1 h3 e he

theorem inv_initial : Inv initialState := by
  refine ⟨rfl, rfl, by decide, by decide, by decide, Or.inl (by decide), ?_, ?_⟩ <;>
    intro x hx <;> exact absurd hx (List.not_mem_nil x)

theorem inv_reach (s : GameState) (h : Reach s) : Inv s := by
  obtain ⟨g, k, _, hrun⟩ := h
  rw [← hrun]
  clear hrun
  induction k with
  | zero => exact inv_initial
  | succ k ih =>
    rw [runFrom]
    have : runFrom g (initialRefs, initialState) k =
        ((runFrom g (initialRefs, initialState) k).1,
          (runFrom g (initialRefs, initialState) k).2) := rfl
    rw [this]
    exact inv_step (g k) _ _ ih

/-- C2 counterexample: the claimed player invariant is NOT preserved by
every step: enemy contact damage is applied to health with no floor
clamp, so a reachable run (seven scout contacts on ticks 391..397 of the
concrete schedule, each taking 15 from 100 health) ends a step at health
-5 < 0. -/
theorem c2_invariant_counterexample :
    ¬ ∀ s : GameState, Reach s →
      0 ≤ s.player.health ∧ s.player.health ≤ s.player.maxHealth ∧
        0 ≤ s.player.shield ∧ s.player.shield ≤ s.player.maxShield := by
  intro h
  have hr : Reach (runFrom cexFrames P0 397).2 := ⟨cexFrames, 397, cexFrames_valid, rfl⟩
  have h0 := (h _ hr).1
  rw [cexRun_397_health] at h0
  exact absurd h0 (by decide)

/-- C2 amended: for every reachable state the shield bounds
`0 ≤ shield ≤ maxShield` and the health upper bound `health ≤ maxHealth`
do hold after every step, and health can only be negative in a state
whose `gameOver` flag is set (the terminal step): enemy contact damage is
applied without a floor clamp, so `0 ≤ health` itself is not invariant. -/
theorem c2_player_invariant_amended (s : GameState) (h : Reach s) :
    0 ≤ s.player.shield ∧ s.player.shield ≤ s.player.maxShield ∧
      s.player.health ≤ s.player.maxHealth ∧
      (0 ≤ s.player.health ∨ s.gameOver = true) := by
  obtain ⟨_, _, h3, h4, h5, h6, _, _⟩ := inv_reach s h
  exact ⟨h3, h4, h5, h6⟩

theorem c2_player_invariant_amended_witness :
    Reach initialState ∧
      0 ≤ initialState.player.shield ∧
        initialState.player.shield ≤ initialState.player.maxShield ∧
        initialState.player.health ≤ initialState.player.maxHealth ∧
        (0 ≤ initialState.player.health ∨ initialState.gameOver = true) :=
  ⟨⟨cexFrames, 0, cexFrames_valid, rfl⟩,
    c2_player_invariant_amended initialState ⟨cexFrames, 0, cexFrames_valid, rfl⟩⟩

/-- C10: in every reachable state every enemy still in the collection
has health ≥ 1 (the factory creates enemies at 1, 3 or 5 health; the
projectile phase is the only decrement and removes an enemy the moment
its health reaches ≤ 0). -/
theorem c10_enemy_health_invariant :
    (∀ s : GameState, Reach s → ∀ e ∈ s.enemies, 1 ≤ e.health) ∧
      (∀ (w : ℕ) (f : Frame), (spawnEnemy w f).health = 1 ∨
        (spawnEnemy w f).health = 3 ∨ (spawnEnemy w f).health = 5) := by
  constructor
  · intro s h
    exact (inv_reach s h).2.2.2.2.2.2.2
  · exact spawnEnemy_health

set_option maxRecDepth 10000 in
theorem c10_enemy_health_invariant_witness :
    Reach (runFrom cexFrames P0 8).2 ∧
      1 ≤ ((runFrom cexFrames P0 8).2.enemies.headD (spawnEnemy 1 frameIdle)).health :=
  ⟨⟨cexFrames, 8, cexFrames_valid, rfl⟩,
    c10_enemy_health_invariant.1 (runFrom cexFrames P0 8).2
      ⟨cexFrames, 8, cexFrames_valid, rfl⟩
      ((runFrom cexFrames P0 8).2.enemies.headD (spawnEnemy 1 frameIdle)) (by decide)⟩

-- Regeneration helpers.

theorem regenPhase_congr (p q : Player) (h1 : p.shield = q.shield)
    (h2 : p.maxShield = q.maxShield) (h3 : p.shieldRegenCooldown = q.shieldRegenCooldown) :
    (regenPhase p).shield = (regenPhase q).shield ∧
      (regenPhase p).shieldRegenCooldown = (regenPhase q).shieldRegenCooldown := by
  simp only [regenPhase, Bool.and_eq_true, decide_eq_true_eq]
  split_ifs <;> simp_all <;> omega

theorem regenPhase_tick (p : Player) (h : 1 < p.shieldRegenCooldown) :
    (regenPhase p).shield = p.shield ∧
      (regenPhase p).shieldRegenCooldown = p.shieldRegenCooldown - 1 := by
  simp only [regenPhase, Bool.and_eq_true, decide_eq_true_eq]
  split_ifs <;> simp_all <;> omega

theorem regenPhase_unlock (p : Player) (h1 : p.shieldRegenCooldown = 1)
    (h2 : p.shield < p.maxShield) :
    (regenPhase p).shield = p.shield + 1 ∧ (regenPhase p).shieldRegenCooldown = 30 := by
  simp only [regenPhase, Bool.and_eq_true, decide_eq_true_eq]
  split_ifs <;> simp_all <;> omega

/-- In a quiet state under a calm frame, a tick leaves everything but the
regeneration (and the particles) alone: the player's shield and lockout
advance exactly by `regenPhase`, health and maxShield are unchanged, the
state stays quiet and the wave stays put. -/
theorem quiet_step (f : Frame) (q : Refs × GameState) (hq : Quiet q.2)
    (hc : CalmFrame f q.2.wave) :
    (stepFull f q).2.player.shield = (regenPhase q.2.player).shield ∧
      (stepFull f q).2.player.shieldRegenCooldown =
        (regenPhase q.2.player).shieldRegenCooldown ∧
      (stepFull f q).2.player.health = q.2.player.health ∧
      (stepFull f q).2.player.maxShield = q.2.player.maxShield ∧
      Quiet (stepFull f q).2 ∧ (stepFull f q).2.wave = q.2.wave := by
  obtain ⟨r, s⟩ := q
  obtain ⟨hb, ha, he, hg, hp, hh⟩ := hq
  obtain ⟨hkeys, hroll⟩ := hc
  dsimp only at hb ha he hg hp hh hroll
  have hstep : stepFull f (r, s) = stepCore f r s := by
    rw [stepFull, if_neg (by simp [hg, hp])]
  have hfire : keyFireHeld f = false := by simp [keyFireHeld, hkeys]
  have hbul : bulletsIn f r s = [] := by
    unfold bulletsIn bulletsShot fired
    rw [hfire, hb]
    rfl
  have hen : enemiesIn f r s = [] := by
    unfold enemiesIn spawned
    rw [if_neg (by simpa using hroll), he]
    rfl
  have hcontact : contactRes f r s = (pMoved f r s, [], [], 0) := by
    unfold contactRes
    rw [hen]
    rfl
  have hbullet : bulletRes f r s = ([], [], s.score, [], 0) := by
    unfold bulletRes
    rw [hbul, hcontact]
    rfl
  have halien : alienRes f r s = ([], pMoved f r s, [], 0) := by
    unfold alienRes
    rw [ha, hbullet, hcontact]
    rfl
  have hfr : fireRes f r s = ([], []) := by
    unfold fireRes
    rw [hbullet]
    rfl
  have hpl : (stepCore f r s).2.player = regenPhase (pMoved f r s) := by
    show regenPhase (alienRes f r s).2.1 = regenPhase (pMoved f r s)
    rw [halien]
  have hcong := regenPhase_congr (pMoved f r s) s.player rfl rfl rfl
  have hph : (regenPhase (pMoved f r s)).health = s.player.health :=
    (regenPhase_facts (pMoved f r s)).1
  rw [hstep]
  refine ⟨?_, ?_, ?_, ?_, ⟨?_, ?_, ?_, ?_, ?_, ?_⟩, ?_⟩
  · rw [hpl]
    exact hcong.1
  · rw [hpl]
    exact hcong.2
  · rw [hpl]
    exact hph
  · rw [hpl]
    exact (regenPhase_facts (pMoved f r s)).2.2.1
  · show (bulletRes f r s).1 = []
    rw [hbullet]
  · show (alienRes f r s).1 ++ (fireRes f r s).2 = []
    rw [halien, hfr]
    rfl
  · show (fireRes f r s).1 = []
    rw [hfr]
  · show (s.gameOver || decide ((regenPhase (alienRes f r s).2.1).health ≤ 0)) = false
    rw [hg, show regenPhase (alienRes f r s).2.1 = regenPhase (pMoved f r s) from by rw [halien],
      hph]
    have : ¬(s.player.health ≤ 0) := by omega
    simp [this]
  · exact hp
  · show 0 < (stepCore f r s).2.player.health
    rw [show (stepCore f r s).2.player = regenPhase (pMoved f r s) from hpl, hph]
    exact hh
  · show wavePhase s.score (bulletRes f r s).2.2.1 s.wave = s.wave
    rw [hbullet]
    simp [wavePhase]

/-- While the lockout has not reached zero, a quiet calm run leaves the
shield (and everything else but the count-down) unchanged. -/
theorem quiet_run (g : ℕ → Frame) (q : Refs × GameState) :
    ∀ k : ℕ, Quiet q.2 → (∀ n, CalmFrame (g n) q.2.wave) →
      k < q.2.player.shieldRegenCooldown →
      Quiet (runFrom g q k).2 ∧ (runFrom g q k).2.wave = q.2.wave ∧
        (runFrom g q k).2.player.shield = q.2.player.shield ∧
        (runFrom g q k).2.player.shieldRegenCooldown =
          q.2.player.shieldRegenCooldown - k ∧
        (runFrom g q k).2.player.maxShield = q.2.player.maxShield ∧
        (runFrom g q k).2.player.health = q.2.player.health := by
  intro k
  induction k with
  | zero =>
    intro hq hcalm _
    refine ⟨hq, rfl, rfl, ?_, rfl, rfl⟩
    show q.2.player.shieldRegenCooldown = q.2.player.shieldRegenCooldown - 0
    omega
  | succ k ih =>
    intro hq hcalm hlt
    have hk : k < q.2.player.shieldRegenCooldown := by omega
    obtain ⟨q1, q2, q3, q4, q5, q6⟩ := ih hq hcalm hk
    rw [runFrom]
    have hcalm' : CalmFrame (g k) (runFrom g q k).2.wave := q2 ▸ hcalm k
    obtain ⟨s1, s2, s3, s4, s5, s6⟩ := quiet_step (g k) (runFrom g q k) q1 hcalm'
    have hbig : 1 < (runFrom g q k).2.player.shieldRegenCooldown := by omega
    obtain ⟨t1, t2⟩ := regenPhase_tick (runFrom g q k).2.player hbig
    refine ⟨s5, by rw [s6, q2], ?_, ?_, by rw [s4, q5], by rw [s3, q6]⟩
    · rw [s1, t1, q3]
    · rw [s2, t2, q4]
      omega

/-- After `lockout + 30 j` quiet calm ticks, the shield has gained
exactly `j + 1` (provided it stays below max and the lockout was armed). -/
theorem quiet_run_inc (g : ℕ → Frame) (q : Refs × GameState) :
    ∀ j : ℕ, Quiet q.2 → (∀ n, CalmFrame (g n) q.2.wave) →
      1 ≤ q.2.player.shieldRegenCooldown →
      q.2.player.shield + ((j : ℤ) + 1) ≤ q.2.player.maxShield →
      Quiet (runFrom g q (q.2.player.shieldRegenCooldown + 30 * j)).2 ∧
        (runFrom g q (q.2.player.shieldRegenCooldown + 30 * j)).2.wave = q.2.wave ∧
        (runFrom g q (q.2.player.shieldRegenCooldown + 30 * j)).2.player.shield =
          q.2.player.shield + ((j : ℤ) + 1) ∧
        (runFrom g q (q.2.player.shieldRegenCooldown + 30 * j)).2.player.shieldRegenCooldown
          = 30 ∧
        (runFrom g q (q.2.player.shieldRegenCooldown + 30 * j)).2.player.maxShield =
          q.2.player.maxShield ∧
        (runFrom g q (q.2.player.shieldRegenCooldown + 30 * j)).2.player.health =
          q.2.player.health := by
  intro j
  induction j with
  | zero =>
    intro hq hcalm hc1 hroom
    obtain ⟨c', hc'⟩ : ∃ c', q.2.player.shieldRegenCooldown = c' + 1 :=
      ⟨q.2.player.shieldRegenCooldown - 1, by omega⟩
    rw [show q.2.player.shieldRegenCooldown + 30 * 0 = c' + 1 from by omega, runFrom]
    have hlt : c' < q.2.player.shieldRegenCooldown := by omega
    obtain ⟨q1, q2, q3, q4, q5, q6⟩ := quiet_run g q c' hq hcalm hlt
    have hcalm' : CalmFrame (g c') (runFrom g q c').2.wave := q2 ▸ hcalm c'
    obtain ⟨s1, s2, s3, s4, s5, s6⟩ := quiet_step (g c') (runFrom g q c') q1 hcalm'
    have hone : (runFrom g q c').2.player.shieldRegenCooldown = 1 := by omega
    have hlow : (runFrom g q c').2.player.shield < (runFrom g q c').2.player.maxShield := by
      rw [q3, q5]
      simp only [Nat.cast_zero] at hroom
      omega
    obtain ⟨u1, u2⟩ := regenPhase_unlock (runFrom g q c').2.player hone hlow
    refine ⟨s5, by rw [s6, q2], ?_, by rw [s2, u2], by rw [s4, q5], by rw [s3, q6]⟩
    · rw [s1, u1, q3]
      simp only [Nat.cast_zero]
      omega
  | succ j ih =>
    intro hq hcalm hc1 hroom
    have hroom' : q.2.player.shield + ((j : ℤ) + 1) ≤ q.2.player.maxShield := by
      push_cast at hroom ⊢
      omega
    obtain ⟨m1, m2, m3, m4, m5, m6⟩ := ih hq hcalm hc1 hroom'
    rw [show q.2.player.shieldRegenCooldown + 30 * (j + 1) =
      (q.2.player.shieldRegenCooldown + 30 * j) + 30 from by ring, runFrom_add]
    set mid := runFrom g q (q.2.player.shieldRegenCooldown + 30 * j) with hmid
    set g' := fun n => g (q.2.player.shieldRegenCooldown + 30 * j + n) with hg'
    have hcalmMid : ∀ n, CalmFrame (g' n) mid.2.wave := by
      intro n
      rw [m2]
      exact hcalm _
    rw [show (30 : ℕ) = 29 + 1 from rfl, runFrom]
    have hlt29 : 29 < mid.2.player.shieldRegenCooldown := by omega
    obtain ⟨q1, q2, q3, q4, q5, q6⟩ := quiet_run g' mid 29 m1 hcalmMid hlt29
    have hcalm' : CalmFrame (g' 29) (runFrom g' mid 29).2.wave := q2 ▸ hcalmMid 29
    obtain ⟨s1, s2, s3, s4, s5, s6⟩ := quiet_step (g' 29) (runFrom g' mid 29) q1 hcalm'
    have hone : (runFrom g' mid 29).2.player.shieldRegenCooldown = 1 := by omega
    have hlow : (runFrom g' mid 29).2.player.shield <
        (runFrom g' mid 29).2.player.maxShield := by
      rw [q3, m3, q5, m5]
      push_cast at hroom
      omega
    obtain ⟨u1, u2⟩ := regenPhase_unlock (runFrom g' mid 29).2.player hone hlow
    refine ⟨s5, by rw [s6, q2, m2], ?_, by rw [s2, u2], by rw [s4, q5, m5],
      by rw [s3, q6, m6]⟩
    · rw [s1, u1, q3, m3]
      push_cast
      ring

/-- C3 amended: after an enemy-projectile hit at tick T the lockout
leaves the tick at 179 (it is armed at 180 and decremented in the same
tick), so in a quiet calm run with the lockout at `c ≥ 1` the shield does
not increase for the next `c - 1` ticks, FIRST increases at tick `T + c`
(that is `T + 179`, not `T + 180`), and then gains exactly 1 every 30
ticks while below max and unhit. -/
theorem c3_shield_regen_timing (g : ℕ → Frame) (q : Refs × GameState)
    (hq : Quiet q.2) (hcalm : ∀ n, CalmFrame (g n) q.2.wave)
    (hc1 : 1 ≤ q.2.player.shieldRegenCooldown) :
    (∀ k, k < q.2.player.shieldRegenCooldown →
      (runFrom g q k).2.player.shield = q.2.player.shield) ∧
    (∀ j d : ℕ, d < 30 → q.2.player.shield + ((j : ℤ) + 1) ≤ q.2.player.maxShield →
      (runFrom g q (q.2.player.shieldRegenCooldown + 30 * j + d)).2.player.shield =
        q.2.player.shield + ((j : ℤ) + 1)) := by
  constructor
  · intro k hk
    exact (quiet_run g q k hq hcalm hk).2.2.1
  · intro j d hd hroom
    obtain ⟨m1, m2, m3, m4, m5, m6⟩ := quiet_run_inc g q j hq hcalm hc1 hroom
    rw [runFrom_add]
    set mid := runFrom g q (q.2.player.shieldRegenCooldown + 30 * j) with hmid
    set g' := fun n => g (q.2.player.shieldRegenCooldown + 30 * j + n) with hg'
    have hcalmMid : ∀ n, CalmFrame (g' n) mid.2.wave := by
      intro n
      rw [m2]
      exact hcalm _
    have hlt : d < mid.2.player.shieldRegenCooldown := by omega
    rw [(quiet_run g' mid d m1 hcalmMid hlt).2.2.1, m3]

set_option maxRecDepth 10000 in
theorem c3_shield_regen_timing_witness :
    Quiet qState ∧ qState.player.shieldRegenCooldown = 179 ∧
      (runFrom (fun _ => frameIdle) (initialRefs, qState) 179).2.player.shield = 92 + (0 + 1) := by
  have hq : Quiet qState := ⟨rfl, rfl, rfl, rfl, rfl, by decide⟩
  have hcalm : ∀ n : ℕ, CalmFrame ((fun _ : ℕ => frameIdle) n) (initialRefs, qState).2.wave := by
    intro n
    refine ⟨fun _ => rfl, ?_⟩
    show ¬(frameIdle.spawnRoll < spawnRate qState.wave)
    decide
  have h := (c3_shield_regen_timing (fun _ => frameIdle) (initialRefs, qState) hq hcalm
    (by decide)).2 0 0 (by decide) (by decide)
  refine ⟨hq, rfl, ?_⟩
  simpa using h

/-- C3 counterexample: in the concrete reachable run, the enemy
projectile hits the player on tick T = 150 (shield 100 drops to 92 and
the lockout, armed at 180, already reads 179 at the end of that tick);
the shield then stays at 92 through tick 328 but rises to 93 on tick
329 = T + 179 — strictly before tick T + 180 = 330, contradicting the
claim that no increase can happen before T + 180. -/
theorem c3_shield_regen_counterexample :
    (runFrom cexFrames P0 149).2.player.shield = 100 ∧
      (runFrom cexFrames P0 150).2.player.shield = 92 ∧
      (runFrom cexFrames P0 150).2.player.shieldRegenCooldown = 179 ∧
      (runFrom cexFrames P0 328).2.player.shield = 92 ∧
      (runFrom cexFrames P0 329).2.player.shield = 93 := by
  refine ⟨?_, ?_, ?_, ?_, cexRun_329_shield⟩
  · rw [cexRun_149]
    rfl
  · rw [cexRun_150]
    rfl
  · rw [cexRun_150]
    rfl
  · rw [cexRun_328]
    rfl

/-- C9: the factory's type roll: up to wave 3 every legal roll yields a
scout (the table is indexed by `floor(roll * 2)`, hitting only the two
scout entries); past wave 3 the four equal-width quarters of the roll
select scout, scout, heavy, boss — so scout on exactly `[0, 1/2)`, heavy
on `[1/2, 3/4)`, boss on `[3/4, 1)`. -/
theorem c9_spawn_type_policy :
    (∀ (w : ℕ) (f : Frame), (spawnEnemy w f).type = pickType w f.typeRoll) ∧
    (∀ (w : ℕ) (roll : Q), unitQ roll → w ≤ 3 → pickType w roll = EnemyType.scout) ∧
    (∀ (w : ℕ) (roll : Q), unitQ roll → 3 < w →
      ((pickType w roll = EnemyType.scout ↔ roll.val < 1/2) ∧
        (pickType w roll = EnemyType.heavy ↔ 1/2 ≤ roll.val ∧ roll.val < 3/4) ∧
        (pickType w roll = EnemyType.boss ↔ 3/4 ≤ roll.val))) := by
  refine ⟨?_, ?_, ?_⟩
  · intro w f
    unfold spawnEnemy
    cases h : pickType w f.typeRoll <;> simp
  · intro w roll hu hw
    obtain ⟨hd, h0, h1⟩ := hu
    unfold pickType
    rw [if_neg (by omega)]
    have hmval : (roll * (2 : Q)).floor = (roll.num * 2) / (roll.den * 1) := by
      show ((roll * (2 : Q)).num).fdiv ((roll * (2 : Q)).den) = _
      rw [show (roll * (2 : Q)).num = roll.num * 2 from rfl,
        show (roll * (2 : Q)).den = roll.den * 1 from rfl,
        Int.fdiv_eq_ediv _ (by omega)]
    have hm0 : 0 ≤ (roll * (2 : Q)).floor := by
      rw [hmval]
      exact Int.ediv_nonneg (by omega) (by omega)
    have hm2 : (roll * (2 : Q)).floor < 2 := by
      rw [hmval, Int.ediv_lt_iff_lt_mul (by omega)]
      omega
    have hcases : (roll * (2 : Q)).floor = 0 ∨ (roll * (2 : Q)).floor = 1 := by omega
    rcases hcases with h | h <;> rw [h] <;> rfl
  · intro w roll hu hw
    obtain ⟨hd, h0, h1⟩ := hu
    have hdQ : (0 : ℚ) < (roll.den : ℚ) := by exact_mod_cast hd
    unfold pickType
    rw [if_pos hw]
    have hmval : (roll * (4 : Q)).floor = (roll.num * 4) / (roll.den * 1) := by
      show ((roll * (4 : Q)).num).fdiv ((roll * (4 : Q)).den) = _
      rw [show (roll * (4 : Q)).num = roll.num * 4 from rfl,
        show (roll * (4 : Q)).den = roll.den * 1 from rfl,
        Int.fdiv_eq_ediv _ (by omega)]
    have hm0 : 0 ≤ (roll * (4 : Q)).floor := by
      rw [hmval]
      exact Int.ediv_nonneg (by omega) (by omega)
    have hm4 : (roll * (4 : Q)).floor < 4 := by
      rw [hmval, Int.ediv_lt_iff_lt_mul (by omega)]
      omega
    have hchar2 : (roll * (4 : Q)).floor < 2 ↔ roll.num * 4 < 2 * (roll.den * 1) := by
      rw [hmval]
      exact Int.ediv_lt_iff_lt_mul (by omega)
    have hchar3 : (roll * (4 : Q)).floor < 3 ↔ roll.num * 4 < 3 * (roll.den * 1) := by
      rw [hmval]
      exact Int.ediv_lt_iff_lt_mul (by omega)
    have hval2 : roll.val < 1/2 ↔ roll.num * 4 < 2 * (roll.den * 1) := by
      unfold Q.val
      rw [div_lt_div_iff hdQ (by norm_num : (0 : ℚ) < 2)]
      constructor
      · intro h
        have h' : (roll.num : ℚ) * 2 < (roll.den : ℚ) := by linarith
        have h'' : roll.num * 2 < roll.den := by exact_mod_cast h'
        omega
      · intro h
        have h' : roll.num * 2 < roll.den := by omega
        have h'' : (roll.num : ℚ) * 2 < (roll.den : ℚ) := by exact_mod_cast h'
        linarith
    have hval3 : roll.val < 3/4 ↔ roll.num * 4 < 3 * (roll.den * 1) := by
      unfold Q.val
      rw [div_lt_div_iff hdQ (by norm_num : (0 : ℚ) < 4)]
      constructor
      · intro h
        have h' : (roll.num : ℚ) * 4 < (roll.den : ℚ) * 3 := by linarith
        have h'' : roll.num * 4 < roll.den * 3 := by exact_mod_cast h'
        omega
      · intro h
        have h' : roll.num * 4 < roll.den * 3 := by omega
        have h'' : (roll.num : ℚ) * 4 < (roll.den : ℚ) * 3 := by exact_mod_cast h'
        linarith
    have hcases : (roll * (4 : Q)).floor = 0 ∨ (roll * (4 : Q)).floor = 1 ∨
        (roll * (4 : Q)).floor = 2 ∨ (roll * (4 : Q)).floor = 3 := by omega
    have hiff1 : types.getD (roll * (4 : Q)).floor.toNat EnemyType.scout = EnemyType.scout ↔
        (roll * (4 : Q)).floor < 2 := by
      rcases hcases with h | h | h | h <;> rw [h] <;> decide
    have hiff2 : types.getD (roll * (4 : Q)).floor.toNat EnemyType.scout = EnemyType.heavy ↔
        (2 ≤ (roll * (4 : Q)).floor ∧ (roll * (4 : Q)).floor < 3) := by
      rcases hcases with h | h | h | h <;> rw [h] <;> decide
    have hiff3 : types.getD (roll * (4 : Q)).floor.toNat EnemyType.scout = EnemyType.boss ↔
        3 ≤ (roll * (4 : Q)).floor := by
      rcases hcases with h | h | h | h <;> rw [h] <;> decide
    refine ⟨?_, ?_, ?_⟩
    · rw [hiff1, hchar2]
      exact hval2.symm
    · rw [hiff2]
      have ha : 1/2 ≤ roll.val ↔ 2 ≤ (roll * (4 : Q)).floor := by
        rw [← not_lt, ← not_lt]
        exact not_congr (hval2.trans hchar2.symm)
      have hb : (roll * (4 : Q)).floor < 3 ↔ roll.val < 3/4 :=
        hchar3.trans hval3.symm
      exact and_congr ha.symm hb
    · rw [hiff3]
      have hc : 3/4 ≤ roll.val ↔ 3 ≤ (roll * (4 : Q)).floor := by
        rw [← not_lt, ← not_lt]
        exact not_congr (hval3.trans hchar3.symm)
      exact hc.symm

theorem c9_spawn_type_policy_witness :
    unitQ frameIdle.typeRoll ∧ (1 : ℕ) ≤ 3 ∧
      pickType 1 frameIdle.typeRoll = EnemyType.scout ∧
      unitQ (0.6 : Q) ∧ (3 : ℕ) < 4 ∧ pickType 4 (0.6 : Q) = EnemyType.heavy := by
  refine ⟨by decide, by decide, ?_, by decide, by decide, ?_⟩
  · exact c9_spawn_type_policy.2.1 1 frameIdle.typeRoll (by decide) (by decide)
  · refine ((c9_spawn_type_policy.2.2 4 (0.6 : Q) (by decide) (by decide)).2.1).2 ⟨?_, ?_⟩
    · show (1 : ℚ)/2 ≤ (0.6 : Q).val
      unfold Q.val
      rw [show (0.6 : Q).num = 6 by decide, show (0.6 : Q).den = 10 by decide]
      norm_num
    · show (0.6 : Q).val < 3/4
      unfold Q.val
      rw [show (0.6 : Q).num = 6 by decide, show (0.6 : Q).den = 10 by decide]
      norm_num

end LunarDefense
